import Mathlib

/-!
Verification development for the R-Cube-Solver repository.

The development shallowly embeds the two cube-state/move implementations of the
repository (the hand-unrolled per-face move methods of `src/js/cube/CubeState.js`
and the table-driven `rotateFace` of `src/js/solver/Solver.js`), the painted-state
validation pipeline (`validateState`, `faceletsToCubies`, `validateInvariants`,
`calculateParity`), the full layer-by-layer solver (`solveCube` with its six
phases), the move optimizer (`optimizeMoves` / `combineMoves`), and `scramble`.

A cube state is a mapping from the six faces to nine stickers (index 4 is the
center), exactly as the JS `this.state` object of face-keyed 9-element arrays.
Sticker contents are kept polymorphic (`CState α`); the painted-state pipeline
instantiates them with `Char` (paint colors) and `Face` (facelet letters).
-/

namespace RCube

/-- The six faces of the cube, as in the JS face keys U/R/F/D/L/B. -/
inductive Face where
  | U | R | F | D | L | B
deriving DecidableEq, Fintype

/-- A turn amount: quarter clockwise (no suffix), half turn (suffix 2),
quarter counter-clockwise (apostrophe suffix). -/
inductive Amt where
  | cw | half | ccw
deriving DecidableEq, Fintype

/-- A move: one of the 6 faces together with one of the 3 amounts.  In the JS
source a move is a string such as R, R2 or R-prime; `face` is its first
character and `amt` records which suffix it carries. -/
structure Move where
  face : Face
  amt : Amt
deriving DecidableEq, Fintype

/-- A cube state: for each face, its 9 stickers (row-major, index 4 = center).
Mirrors the JS `state` object `{U: [...9], R: [...9], ...}`. -/
abbrev CState (α : Type) := Face → Fin 9 → α

/-- Facelet offset of each face in the 54-facelet string, face order U,R,F,D,L,B
as in `Solver.faceOrder` (`Solver.js` line 37). -/
def faceOffset : Face → Nat
  | .U => 0
  | .R => 9
  | .F => 18
  | .D => 27
  | .L => 36
  | .B => 45

/-- Index of a face/slot pair in the 54-facelet string. -/
def faceletIndex (f : Face) (i : Fin 9) : Nat := faceOffset f + i.val

/-- The "address" state over `Nat`: every one of the 54 stickers carries its own
facelet index, so that two states differ exactly where the underlying sticker
permutations differ. -/
def addrState : CState Nat := fun f i => faceletIndex f i

/-- `CubeState.rotateFaceCW` (`CubeState.js` lines 39-45): clockwise rotation of
the 9 stickers of one face. -/
def rotateFaceCW (f : Fin 9 → α) : Fin 9 → α := fun i =>
  if i = 0 then f 6 else if i = 1 then f 3 else if i = 2 then f 0
  else if i = 3 then f 7 else if i = 4 then f 4 else if i = 5 then f 1
  else if i = 6 then f 8 else if i = 7 then f 5 else f 2

/-- `CubeState.rotateFaceCCW` (`CubeState.js` lines 47-53). -/
def rotateFaceCCW (f : Fin 9 → α) : Fin 9 → α := fun i =>
  if i = 0 then f 2 else if i = 1 then f 5 else if i = 2 then f 8
  else if i = 3 then f 1 else if i = 4 then f 4 else if i = 5 then f 7
  else if i = 6 then f 0 else if i = 7 then f 3 else f 6

namespace CubeState

/-- `CubeState.R(prime)` (`CubeState.js` lines 56-88).  The JS method mutates
`this.state` in place but every read is of a not-yet-overwritten cell (or of the
`temp` buffer holding old values), so the functional transcription reads only
the old state `s`. -/
def moveR (prime : Bool) (s : CState α) : CState α :=
  if prime then fun f =>
    match f with
    | .R => rotateFaceCCW (s .R)
    | .U => fun i => if i = 2 then s .F 2 else if i = 5 then s .F 5 else
        if i = 8 then s .F 8 else s .U i
    | .F => fun i => if i = 2 then s .D 2 else if i = 5 then s .D 5 else
        if i = 8 then s .D 8 else s .F i
    | .D => fun i => if i = 2 then s .B 6 else if i = 5 then s .B 3 else
        if i = 8 then s .B 0 else s .D i
    | .B => fun i => if i = 0 then s .U 8 else if i = 3 then s .U 5 else
        if i = 6 then s .U 2 else s .B i
    | x => s x
  else fun f =>
    match f with
    | .R => rotateFaceCW (s .R)
    | .U => fun i => if i = 2 then s .B 6 else if i = 5 then s .B 3 else
        if i = 8 then s .B 0 else s .U i
    | .B => fun i => if i = 0 then s .D 8 else if i = 3 then s .D 5 else
        if i = 6 then s .D 2 else s .B i
    | .D => fun i => if i = 2 then s .F 2 else if i = 5 then s .F 5 else
        if i = 8 then s .F 8 else s .D i
    | .F => fun i => if i = 2 then s .U 2 else if i = 5 then s .U 5 else
        if i = 8 then s .U 8 else s .F i
    | x => s x

/-- `CubeState.L(prime)` (`CubeState.js` lines 90-122). -/
def moveL (prime : Bool) (s : CState α) : CState α :=
  if prime then fun f =>
    match f with
    | .L => rotateFaceCCW (s .L)
    | .U => fun i => if i = 0 then s .B 8 else if i = 3 then s .B 5 else
        if i = 6 then s .B 2 else s .U i
    | .B => fun i => if i = 2 then s .D 6 else if i = 5 then s .D 3 else
        if i = 8 then s .D 0 else s .B i
    | .D => fun i => if i = 0 then s .F 0 else if i = 3 then s .F 3 else
        if i = 6 then s .F 6 else s .D i
    | .F => fun i => if i = 0 then s .U 0 else if i = 3 then s .U 3 else
        if i = 6 then s .U 6 else s .F i
    | x => s x
  else fun f =>
    match f with
    | .L => rotateFaceCW (s .L)
    | .U => fun i => if i = 0 then s .F 0 else if i = 3 then s .F 3 else
        if i = 6 then s .F 6 else s .U i
    | .F => fun i => if i = 0 then s .D 0 else if i = 3 then s .D 3 else
        if i = 6 then s .D 6 else s .F i
    | .D => fun i => if i = 0 then s .B 8 else if i = 3 then s .B 5 else
        if i = 6 then s .B 2 else s .D i
    | .B => fun i => if i = 2 then s .U 6 else if i = 5 then s .U 3 else
        if i = 8 then s .U 0 else s .B i
    | x => s x

/-- `CubeState.U(prime)` (`CubeState.js` lines 124-156). -/
def moveU (prime : Bool) (s : CState α) : CState α :=
  if prime then fun f =>
    match f with
    | .U => rotateFaceCCW (s .U)
    | .F => fun i => if i = 0 then s .R 0 else if i = 1 then s .R 1 else
        if i = 2 then s .R 2 else s .F i
    | .R => fun i => if i = 0 then s .B 0 else if i = 1 then s .B 1 else
        if i = 2 then s .B 2 else s .R i
    | .B => fun i => if i = 0 then s .L 0 else if i = 1 then s .L 1 else
        if i = 2 then s .L 2 else s .B i
    | .L => fun i => if i = 0 then s .F 0 else if i = 1 then s .F 1 else
        if i = 2 then s .F 2 else s .L i
    | x => s x
  else fun f =>
    match f with
    | .U => rotateFaceCW (s .U)
    | .F => fun i => if i = 0 then s .L 0 else if i = 1 then s .L 1 else
        if i = 2 then s .L 2 else s .F i
    | .L => fun i => if i = 0 then s .B 0 else if i = 1 then s .B 1 else
        if i = 2 then s .B 2 else s .L i
    | .B => fun i => if i = 0 then s .R 0 else if i = 1 then s .R 1 else
        if i = 2 then s .R 2 else s .B i
    | .R => fun i => if i = 0 then s .F 0 else if i = 1 then s .F 1 else
        if i = 2 then s .F 2 else s .R i
    | x => s x

/-- `CubeState.D(prime)` (`CubeState.js` lines 158-190). -/
def moveD (prime : Bool) (s : CState α) : CState α :=
  if prime then fun f =>
    match f with
    | .D => rotateFaceCCW (s .D)
    | .F => fun i => if i = 6 then s .L 6 else if i = 7 then s .L 7 else
        if i = 8 then s .L 8 else s .F i
    | .L => fun i => if i = 6 then s .B 6 else if i = 7 then s .B 7 else
        if i = 8 then s .B 8 else s .L i
    | .B => fun i => if i = 6 then s .R 6 else if i = 7 then s .R 7 else
        if i = 8 then s .R 8 else s .B i
    | .R => fun i => if i = 6 then s .F 6 else if i = 7 then s .F 7 else
        if i = 8 then s .F 8 else s .R i
    | x => s x
  else fun f =>
    match f with
    | .D => rotateFaceCW (s .D)
    | .F => fun i => if i = 6 then s .R 6 else if i = 7 then s .R 7 else
        if i = 8 then s .R 8 else s .F i
    | .R => fun i => if i = 6 then s .B 6 else if i = 7 then s .B 7 else
        if i = 8 then s .B 8 else s .R i
    | .B => fun i => if i = 6 then s .L 6 else if i = 7 then s .L 7 else
        if i = 8 then s .L 8 else s .B i
    | .L => fun i => if i = 6 then s .F 6 else if i = 7 then s .F 7 else
        if i = 8 then s .F 8 else s .L i
    | x => s x

/-- `CubeState.F(prime)` (`CubeState.js` lines 192-224). -/
def moveF (prime : Bool) (s : CState α) : CState α :=
  if prime then fun f =>
    match f with
    | .F => rotateFaceCCW (s .F)
    | .U => fun i => if i = 6 then s .R 0 else if i = 7 then s .R 3 else
        if i = 8 then s .R 6 else s .U i
    | .R => fun i => if i = 0 then s .D 2 else if i = 3 then s .D 1 else
        if i = 6 then s .D 0 else s .R i
    | .D => fun i => if i = 0 then s .L 2 else if i = 1 then s .L 5 else
        if i = 2 then s .L 8 else s .D i
    | .L => fun i => if i = 2 then s .U 6 else if i = 5 then s .U 7 else
        if i = 8 then s .U 8 else s .L i
    | x => s x
  else fun f =>
    match f with
    | .F => rotateFaceCW (s .F)
    | .U => fun i => if i = 6 then s .L 8 else if i = 7 then s .L 5 else
        if i = 8 then s .L 2 else s .U i
    | .L => fun i => if i = 2 then s .D 0 else if i = 5 then s .D 1 else
        if i = 8 then s .D 2 else s .L i
    | .D => fun i => if i = 0 then s .R 6 else if i = 1 then s .R 3 else
        if i = 2 then s .R 0 else s .D i
    | .R => fun i => if i = 0 then s .U 8 else if i = 3 then s .U 7 else
        if i = 6 then s .U 6 else s .R i
    | x => s x

/-- `CubeState.B(prime)` (`CubeState.js` lines 226-258). -/
def moveB (prime : Bool) (s : CState α) : CState α :=
  if prime then fun f =>
    match f with
    | .B => rotateFaceCCW (s .B)
    | .U => fun i => if i = 0 then s .L 6 else if i = 1 then s .L 3 else
        if i = 2 then s .L 0 else s .U i
    | .L => fun i => if i = 0 then s .D 6 else if i = 3 then s .D 7 else
        if i = 6 then s .D 8 else s .L i
    | .D => fun i => if i = 6 then s .R 8 else if i = 7 then s .R 5 else
        if i = 8 then s .R 2 else s .D i
    | .R => fun i => if i = 2 then s .U 0 else if i = 5 then s .U 1 else
        if i = 8 then s .U 2 else s .R i
    | x => s x
  else fun f =>
    match f with
    | .B => rotateFaceCW (s .B)
    | .U => fun i => if i = 0 then s .R 2 else if i = 1 then s .R 5 else
        if i = 2 then s .R 8 else s .U i
    | .R => fun i => if i = 2 then s .D 8 else if i = 5 then s .D 7 else
        if i = 8 then s .D 6 else s .R i
    | .D => fun i => if i = 6 then s .L 0 else if i = 7 then s .L 3 else
        if i = 8 then s .L 6 else s .D i
    | .L => fun i => if i = 0 then s .U 2 else if i = 3 then s .U 1 else
        if i = 6 then s .U 0 else s .L i
    | x => s x

/-- One execution of the face method selected by `CubeState.applyMove`'s switch
(`CubeState.js` lines 265-274). -/
def execute (face : Face) (prime : Bool) (s : CState α) : CState α :=
  match face with
  | .R => moveR prime s
  | .L => moveL prime s
  | .U => moveU prime s
  | .D => moveD prime s
  | .F => moveF prime s
  | .B => moveB prime s

/-- `CubeState.applyMove` (`CubeState.js` lines 260-282): runs the face method
once with the prime flag, and a second time when the move is a half turn. -/
def applyMove (m : Move) (s : CState α) : CState α :=
  let prime := m.amt = Amt.ccw
  let double := m.amt = Amt.half
  let s1 := execute m.face prime s
  if double then execute m.face prime s1 else s1

/-- `CubeState.applyMoves` (`CubeState.js` lines 284-287) on an already-split
move list. -/
def applyMoves (ms : List Move) (s : CState α) : CState α :=
  ms.foldl (fun st m => applyMove m st) s

/-- `CubeState.getInverseMove` (`CubeState.js` lines 297-301): drop an
apostrophe, keep a half turn, otherwise append an apostrophe. -/
def getInverseMove (m : Move) : Move :=
  match m.amt with
  | .ccw => ⟨m.face, .cw⟩
  | .half => m
  | .cw => ⟨m.face, .ccw⟩

end CubeState

section MoveIdentities

open CubeState

theorem moveU_inv_left (s : CState α) : moveU true (moveU false s) = s := by
  funext f i
  cases f <;> fin_cases i <;> rfl

theorem moveU_inv_right (s : CState α) : moveU false (moveU true s) = s := by
  funext f i
  cases f <;> fin_cases i <;> rfl

theorem moveU_pow4 (s : CState α) :
    moveU false (moveU false (moveU false (moveU false s))) = s := by
  funext f i
  cases f <;> fin_cases i <;> rfl

theorem moveR_inv_left (s : CState α) : moveR true (moveR false s) = s := by
  funext f i
  cases f <;> fin_cases i <;> rfl

theorem moveR_inv_right (s : CState α) : moveR false (moveR true s) = s := by
  funext f i
  cases f <;> fin_cases i <;> rfl

theorem moveR_pow4 (s : CState α) :
    moveR false (moveR false (moveR false (moveR false s))) = s := by
  funext f i
  cases f <;> fin_cases i <;> rfl

theorem moveL_inv_left (s : CState α) : moveL true (moveL false s) = s := by
  funext f i
  cases f <;> fin_cases i <;> rfl

theorem moveL_inv_right (s : CState α) : moveL false (moveL true s) = s := by
  funext f i
  cases f <;> fin_cases i <;> rfl

theorem moveL_pow4 (s : CState α) :
    moveL false (moveL false (moveL false (moveL false s))) = s := by
  funext f i
  cases f <;> fin_cases i <;> rfl

theorem moveD_inv_left (s : CState α) : moveD true (moveD false s) = s := by
  funext f i
  cases f <;> fin_cases i <;> rfl

theorem moveD_inv_right (s : CState α) : moveD false (moveD true s) = s := by
  funext f i
  cases f <;> fin_cases i <;> rfl

theorem moveD_pow4 (s : CState α) :
    moveD false (moveD false (moveD false (moveD false s))) = s := by
  funext f i
  cases f <;> fin_cases i <;> rfl

theorem moveB_inv_left (s : CState α) : moveB true (moveB false s) = s := by
  funext f i
  cases f <;> fin_cases i <;> rfl

theorem moveB_inv_right (s : CState α) : moveB false (moveB true s) = s := by
  funext f i
  cases f <;> fin_cases i <;> rfl

theorem moveB_pow4 (s : CState α) :
    moveB false (moveB false (moveB false (moveB false s))) = s := by
  funext f i
  cases f <;> fin_cases i <;> rfl

end MoveIdentities

/-- C7 counterexample: the claim "applying M then getInverseMove(M) restores all
54 stickers, for every move M and state s" is false on the code.  For the
quarter-clockwise F move, `CubeState.F(false)` writes the R column in reversed
strip order (`R[0]=temp[2] ... R[6]=temp[0]`, `CubeState.js` lines 220-222)
while `CubeState.F(true)` reads it straight, so F followed by F-prime swaps the
stickers U6 and U8 and the stickers L2 and L8.  On the address state the
round trip therefore differs from the identity. -/
theorem C7_move_inverse_counterexample :
    CubeState.applyMove (CubeState.getInverseMove ⟨Face.F, Amt.cw⟩)
      (CubeState.applyMove ⟨Face.F, Amt.cw⟩ addrState) ≠ addrState := by
  decide

/-- C7 amended: for every move whose face is not F (quarter clockwise, quarter
counter-clockwise or half turn of U, R, L, D or B), applying the move via
`CubeState.applyMove` and then applying `getInverseMove` of it restores all 54
stickers of the state exactly.  Only the two F-face permutations are
inconsistent with each other; the other five faces' prime methods invert their
plain methods, and their quarter turns have order 4. -/
theorem C7_move_inverse_amended (m : Move) (hm : m.face ≠ Face.F) (s : CState α) :
    CubeState.applyMove (CubeState.getInverseMove m) (CubeState.applyMove m s) = s := by
  rcases m with ⟨f, a⟩
  cases f
  case F => exact absurd rfl hm
  case U => cases a
            case cw => exact moveU_inv_left s
            case ccw => exact moveU_inv_right s
            case half => exact moveU_pow4 s
  case R => cases a
            case cw => exact moveR_inv_left s
            case ccw => exact moveR_inv_right s
            case half => exact moveR_pow4 s
  case L => cases a
            case cw => exact moveL_inv_left s
            case ccw => exact moveL_inv_right s
            case half => exact moveL_pow4 s
  case D => cases a
            case cw => exact moveD_inv_left s
            case ccw => exact moveD_inv_right s
            case half => exact moveD_pow4 s
  case B => cases a
            case cw => exact moveB_inv_left s
            case ccw => exact moveB_inv_right s
            case half => exact moveB_pow4 s

/-- C7 witness: the amended theorem applied to the concrete quarter-clockwise U
move and the address state. -/
theorem C7_move_inverse_witness :
    (Move.mk Face.U Amt.cw).face ≠ Face.F ∧
      CubeState.applyMove (CubeState.getInverseMove ⟨Face.U, Amt.cw⟩)
        (CubeState.applyMove ⟨Face.U, Amt.cw⟩ addrState) = addrState :=
  ⟨by decide, C7_move_inverse_amended ⟨Face.U, Amt.cw⟩ (by decide) addrState⟩

namespace Solver

/-- A strip of three face/slot cells, the inner arrays of the JS
`getAdjacentEdges` table. -/
def strip3 (a b c : Face × Fin 9) : Fin 3 → Face × Fin 9 :=
  fun j => if j = 0 then a else if j = 1 then b else c

/-- A cycle of four strips, the outer array of the JS `getAdjacentEdges`
table. -/
def strips4 (a b c d : Fin 3 → Face × Fin 9) : Fin 4 → Fin 3 → Face × Fin 9 :=
  fun i => if i = 0 then a else if i = 1 then b else if i = 2 then c else d

/-- `Solver.getAdjacentEdges` (`Solver.js` lines 422-432): the four adjacent
three-sticker strips of each face, in the source's order. -/
def getAdjacentEdges : Face → Fin 4 → Fin 3 → Face × Fin 9
  | .U => strips4 (strip3 (.B, 0) (.B, 1) (.B, 2)) (strip3 (.R, 0) (.R, 1) (.R, 2))
      (strip3 (.F, 0) (.F, 1) (.F, 2)) (strip3 (.L, 0) (.L, 1) (.L, 2))
  | .D => strips4 (strip3 (.F, 6) (.F, 7) (.F, 8)) (strip3 (.R, 6) (.R, 7) (.R, 8))
      (strip3 (.B, 6) (.B, 7) (.B, 8)) (strip3 (.L, 6) (.L, 7) (.L, 8))
  | .R => strips4 (strip3 (.U, 8) (.U, 5) (.U, 2)) (strip3 (.B, 0) (.B, 3) (.B, 6))
      (strip3 (.D, 8) (.D, 5) (.D, 2)) (strip3 (.F, 8) (.F, 5) (.F, 2))
  | .L => strips4 (strip3 (.U, 0) (.U, 3) (.U, 6)) (strip3 (.F, 0) (.F, 3) (.F, 6))
      (strip3 (.D, 0) (.D, 3) (.D, 6)) (strip3 (.B, 8) (.B, 5) (.B, 2))
  | .F => strips4 (strip3 (.U, 6) (.U, 7) (.U, 8)) (strip3 (.R, 0) (.R, 3) (.R, 6))
      (strip3 (.D, 2) (.D, 1) (.D, 0)) (strip3 (.L, 8) (.L, 5) (.L, 2))
  | .B => strips4 (strip3 (.U, 2) (.U, 1) (.U, 0)) (strip3 (.L, 0) (.L, 3) (.L, 6))
      (strip3 (.D, 6) (.D, 7) (.D, 8)) (strip3 (.R, 8) (.R, 5) (.R, 2))

/-- `Solver.rotateFace` (`Solver.js` lines 400-420).  The source first rotates
the face's own 9 stickers clockwise, then buffers the first adjacent strip and
runs the in-place loop `for i in 0..3: dst = adj[i] gets (i == 0 ? buffer :
current state at adj[(i+3)%4])`.  The loop is transcribed write-by-write: each
cell write reads the state as already updated by the preceding writes, exactly
as the JS in-place mutation does. -/
def rotateFace (face : Face) (s : CState α) : CState α :=
  let s1 : CState α := fun f => if f = face then rotateFaceCW (s f) else s f
  let adj := getAdjacentEdges face
  let buffer : Fin 3 → α := fun j => s1 (adj 0 j).1 (adj 0 j).2
  ([0, 1, 2, 3] : List (Fin 4)).foldl
    (fun st i =>
      ([0, 1, 2] : List (Fin 3)).foldl
        (fun st2 j =>
          let dst := adj i j
          let v := if i = 0 then buffer j else st2 (adj (i + 3) j).1 (adj (i + 3) j).2
          fun f k => if f = dst.1 ∧ k = dst.2 then v else st2 f k)
        st)
    s1

/-- `Solver.applyMove` (`Solver.js` lines 389-398): a half turn runs
`rotateFace` twice, a prime move three times, a plain move once. -/
def applyMove (m : Move) (s : CState α) : CState α :=
  let times := match m.amt with | .half => 2 | .ccw => 3 | .cw => 1
  Nat.iterate (rotateFace m.face) times s

end Solver

/-- C8 counterexample: the claim that `CubeState`'s hand-unrolled move methods
and `Solver`'s table-driven `rotateFace` produce identical sticker assignments
for every move and state is false.  `Solver.rotateFace` processes its four
adjacent strips in place in increasing order, so strip 0 is rewritten with its
own buffered values and strips 1, 2 and 3 all receive the old contents of strip
0 instead of a 4-cycle.  On the address state, the quarter-clockwise U move
leaves sticker R0 = 18 (the old F0 value) under `CubeState.applyMove` but
R0 = 45 (the old B0 value) under `Solver.applyMove`. -/
theorem C8_semantics_counterexample :
    Solver.applyMove ⟨Face.U, Amt.cw⟩ addrState ≠
      CubeState.applyMove ⟨Face.U, Amt.cw⟩ addrState := by
  decide

/-- C8 amended: the two face-turn implementations agree exactly on the turned
face's own 9 stickers, for every move (any of the 6 faces and 3 amounts) and
every state; they disagree on adjacent-face stickers (see the
counterexample). -/
theorem C8_semantics_amended (m : Move) (s : CState α) :
    Solver.applyMove m s m.face = CubeState.applyMove m s m.face := by
  rcases m with ⟨f, a⟩
  cases f <;> cases a <;> (funext i; fin_cases i <;> rfl)

namespace Solver

/-- The quarter-turn value of a move in `Solver.combineMoves` (`Solver.js`
lines 1074-1075): apostrophe counts 3, the digit 2 counts 2, plain counts 1. -/
def amtVal : Amt → Nat
  | .ccw => 3
  | .half => 2
  | .cw => 1

/-- `Solver.combineMoves` (`Solver.js` lines 1072-1082): add the two quarter-turn
values mod 4; 0 cancels both moves, 1/2/3 map back to plain/half/prime on the
first move's face. -/
def combineMoves (m1 m2 : Move) : Option Move :=
  let face := m1.face
  let total := (amtVal m1.amt + amtVal m2.amt) % 4
  if total = 0 then none
  else if total = 1 then some ⟨face, .cw⟩
  else if total = 2 then some ⟨face, .half⟩
  else some ⟨face, .ccw⟩

/-- One pass of the scanning loop inside `Solver.optimizeMoves` (`Solver.js`
lines 1042-1066): walk the list; when two adjacent moves share a face, emit
their combination (if any), skip both and set the changed flag; otherwise keep
the first move and continue from the second.  The final element is kept
as is. -/
def optPass : List Move → List Move × Bool
  | [] => ([], false)
  | [m] => ([m], false)
  | m1 :: m2 :: rest =>
    if m1.face = m2.face then
      match combineMoves m1 m2 with
      | some c => (c :: (optPass rest).1, true)
      | none => ((optPass rest).1, true)
    else
      (m1 :: (optPass (m2 :: rest)).1, (optPass (m2 :: rest)).2)

theorem optPass_length_le (l : List Move) : (optPass l).1.length ≤ l.length := by
  induction l using optPass.induct with
  | case1 => simp [optPass]
  | case2 m => simp [optPass]
  | case3 m1 m2 rest hface c hc ih =>
    have he : optPass (m1 :: m2 :: rest) = (c :: (optPass rest).1, true) := by
      rw [optPass]; simp [hface, hc]
    rw [he]
    simpa using Nat.le_succ_of_le (Nat.succ_le_succ ih)
  | case4 m1 m2 rest hface hc ih =>
    have he : optPass (m1 :: m2 :: rest) = ((optPass rest).1, true) := by
      rw [optPass]; simp [hface, hc]
    rw [he]
    simp only [List.length_cons]
    omega
  | case5 m1 m2 rest hface ih =>
    have he : optPass (m1 :: m2 :: rest) =
        (m1 :: (optPass (m2 :: rest)).1, (optPass (m2 :: rest)).2) := by
      rw [optPass]; simp [hface]
    rw [he]
    simpa using Nat.succ_le_succ ih

theorem optPass_length_lt (l : List Move) (h : (optPass l).2 = true) :
    (optPass l).1.length < l.length := by
  induction l using optPass.induct with
  | case1 => simp [optPass] at h
  | case2 m => simp [optPass] at h
  | case3 m1 m2 rest hface c hc ih =>
    have he : optPass (m1 :: m2 :: rest) = (c :: (optPass rest).1, true) := by
      rw [optPass]; simp [hface, hc]
    rw [he]
    have := optPass_length_le rest
    simp only [List.length_cons]
    omega
  | case4 m1 m2 rest hface hc ih =>
    have he : optPass (m1 :: m2 :: rest) = ((optPass rest).1, true) := by
      rw [optPass]; simp [hface, hc]
    rw [he]
    have := optPass_length_le rest
    simp only [List.length_cons]
    omega
  | case5 m1 m2 rest hface ih =>
    have he : optPass (m1 :: m2 :: rest) =
        (m1 :: (optPass (m2 :: rest)).1, (optPass (m2 :: rest)).2) := by
      rw [optPass]; simp [hface]
    rw [he] at h
    have hlt := ih h
    have he1 : (optPass (m1 :: m2 :: rest)).1 = m1 :: (optPass (m2 :: rest)).1 := by
      rw [he]
    rw [he1]
    simp only [List.length_cons] at hlt ⊢
    omega

/-- `Solver.optimizeMoves` (`Solver.js` lines 1037-1070): repeat the scanning
pass while it reports a change.  The JS `while (changed)` loop terminates
because a changing pass strictly shortens the list. -/
def optimizeMoves (l : List Move) : List Move :=
  if h : (optPass l).2 = true then optimizeMoves (optPass l).1 else (optPass l).1
termination_by l.length
decreasing_by exact optPass_length_lt l h

theorem optPass_eq_self (l : List Move) (h : (optPass l).2 = false) :
    (optPass l).1 = l ∧ List.Chain' (fun a b => a.face ≠ b.face) l := by
  induction l using optPass.induct with
  | case1 => exact ⟨rfl, List.chain'_nil⟩
  | case2 m => exact ⟨rfl, List.chain'_singleton m⟩
  | case3 m1 m2 rest hface c hc ih =>
    have he : optPass (m1 :: m2 :: rest) = (c :: (optPass rest).1, true) := by
      rw [optPass]; simp [hface, hc]
    rw [he] at h
    simp at h
  | case4 m1 m2 rest hface hc ih =>
    have he : optPass (m1 :: m2 :: rest) = ((optPass rest).1, true) := by
      rw [optPass]; simp [hface, hc]
    rw [he] at h
    simp at h
  | case5 m1 m2 rest hface ih =>
    have he : optPass (m1 :: m2 :: rest) =
        (m1 :: (optPass (m2 :: rest)).1, (optPass (m2 :: rest)).2) := by
      rw [optPass]; simp [hface]
    rw [he] at h
    obtain ⟨h1, h2⟩ := ih h
    refine ⟨by rw [he, h1], ?_⟩
    exact List.chain'_cons.mpr ⟨hface, h2⟩

theorem optPass_of_chain (l : List Move)
    (h : List.Chain' (fun a b => a.face ≠ b.face) l) : optPass l = (l, false) := by
  induction l with
  | nil => rfl
  | cons m1 tl ih =>
    match tl with
    | [] => rfl
    | m2 :: rest =>
      have hface : m1.face ≠ m2.face := (List.chain'_cons.mp h).1
      have htl := (List.chain'_cons.mp h).2
      have he : optPass (m1 :: m2 :: rest) =
          (m1 :: (optPass (m2 :: rest)).1, (optPass (m2 :: rest)).2) := by
        rw [optPass]; simp [hface]
      rw [he, ih htl]

end Solver

section OptimizerSemantics

/-- Helper for combination soundness: the action of an amount, expressed with an
abstract quarter turn `X` and prime turn `Xp`. -/
def applyPow (X Xp : CState α → CState α) : Amt → CState α → CState α
  | .cw => X
  | .half => fun s => X (X s)
  | .ccw => Xp

theorem applyPow_combine (X Xp : CState α → CState α)
    (h1 : ∀ s, Xp (X s) = s) (h2 : ∀ s, X (Xp s) = s)
    (h4 : ∀ s, X (X (X (X s))) = s) (a1 a2 : Amt) (s : CState α) :
    applyPow X Xp a2 (applyPow X Xp a1 s) =
      match (Solver.amtVal a1 + Solver.amtVal a2) % 4 with
      | 0 => s
      | 1 => X s
      | 2 => X (X s)
      | _ => Xp s := by
  have hp3 : ∀ t, Xp t = X (X (X t)) := by
    intro t
    conv_lhs => rw [← h4 t]
    exact h1 _
  cases a1 <;> cases a2
  · exact rfl
  · exact (hp3 s).symm
  · exact h1 s
  · exact (hp3 s).symm
  · exact h4 s
  · show Xp (X (X s)) = X s
    rw [hp3]
    exact h4 (X s)
  · exact h2 s
  · show X (X (Xp s)) = X s
    rw [hp3]
    exact h4 (X s)
  · show Xp (Xp s) = X (X s)
    rw [hp3, hp3]
    exact h4 (X (X s))

theorem applyMove_applyPow (f : Face) (a : Amt) (s : CState α) :
    CubeState.applyMove ⟨f, a⟩ s =
      applyPow (CubeState.execute f false) (CubeState.execute f true) a s := by
  cases a <;> rfl

theorem combineMoves_eq (f g : Face) (a1 a2 : Amt) :
    Solver.combineMoves ⟨f, a1⟩ ⟨g, a2⟩ =
      (match (Solver.amtVal a1 + Solver.amtVal a2) % 4 with
       | 0 => none
       | 1 => some ⟨f, .cw⟩
       | 2 => some ⟨f, .half⟩
       | _ => some ⟨f, .ccw⟩) := by
  cases a1 <;> cases a2 <;> simp [Solver.combineMoves, Solver.amtVal]

/-- Soundness of `Solver.combineMoves` for `CubeState` replay semantics, for the
five faces whose quarter turn has order 4 and whose prime turn is its inverse
(every face but F). -/
theorem combineMoves_sound (f : Face) (hf : f ≠ Face.F) (a1 a2 : Amt) (s : CState α) :
    CubeState.applyMove ⟨f, a2⟩ (CubeState.applyMove ⟨f, a1⟩ s) =
      (match Solver.combineMoves ⟨f, a1⟩ ⟨f, a2⟩ with
       | some c => CubeState.applyMove c s
       | none => s) := by
  obtain ⟨h1, h2, h4⟩ :
      (∀ t : CState α, CubeState.execute f true (CubeState.execute f false t) = t) ∧
      (∀ t : CState α, CubeState.execute f false (CubeState.execute f true t) = t) ∧
      (∀ t : CState α, CubeState.execute f false (CubeState.execute f false
        (CubeState.execute f false (CubeState.execute f false t))) = t) := by
    cases f
    case F => exact absurd rfl hf
    case U => exact ⟨moveU_inv_left, moveU_inv_right, moveU_pow4⟩
    case R => exact ⟨moveR_inv_left, moveR_inv_right, moveR_pow4⟩
    case L => exact ⟨moveL_inv_left, moveL_inv_right, moveL_pow4⟩
    case D => exact ⟨moveD_inv_left, moveD_inv_right, moveD_pow4⟩
    case B => exact ⟨moveB_inv_left, moveB_inv_right, moveB_pow4⟩
  rw [applyMove_applyPow, applyMove_applyPow,
    applyPow_combine _ _ h1 h2 h4 a1 a2 s, combineMoves_eq]
  cases a1 <;> cases a2 <;> rfl

theorem combineMoves_sound_some (f : Face) (hf : f ≠ Face.F) (a1 a2 : Amt) (c : Move)
    (hc : Solver.combineMoves ⟨f, a1⟩ ⟨f, a2⟩ = some c) (s : CState α) :
    CubeState.applyMove ⟨f, a2⟩ (CubeState.applyMove ⟨f, a1⟩ s) = CubeState.applyMove c s := by
  have h := combineMoves_sound f hf a1 a2 s
  rw [hc] at h
  simpa using h

theorem combineMoves_sound_none (f : Face) (hf : f ≠ Face.F) (a1 a2 : Amt)
    (hc : Solver.combineMoves ⟨f, a1⟩ ⟨f, a2⟩ = none) (s : CState α) :
    CubeState.applyMove ⟨f, a2⟩ (CubeState.applyMove ⟨f, a1⟩ s) = s := by
  have h := combineMoves_sound f hf a1 a2 s
  rw [hc] at h
  simpa using h

theorem applyMoves_cons (m : Move) (ms : List Move) (s : CState α) :
    CubeState.applyMoves (m :: ms) s = CubeState.applyMoves ms (CubeState.applyMove m s) :=
  rfl

theorem combineMoves_face (m1 m2 : Move) (c : Move)
    (h : Solver.combineMoves m1 m2 = some c) : c.face = m1.face := by
  unfold Solver.combineMoves at h
  dsimp only at h
  split at h
  · exact absurd h (by simp)
  split at h
  · cases h; rfl
  split at h
  · cases h; rfl
  · cases h; rfl

theorem optPass_noF (l : List Move) (hF : ∀ m ∈ l, m.face ≠ Face.F) :
    ∀ m ∈ (Solver.optPass l).1, m.face ≠ Face.F := by
  induction l using Solver.optPass.induct with
  | case1 => intro m hm; simp [Solver.optPass] at hm
  | case2 m0 =>
    intro m hm
    simp only [Solver.optPass, List.mem_singleton] at hm
    exact hm ▸ hF m0 (by simp)
  | case3 m1 m2 rest hface c hc ih =>
    have he : Solver.optPass (m1 :: m2 :: rest) = (c :: (Solver.optPass rest).1, true) := by
      rw [Solver.optPass]; simp [hface, hc]
    rw [he]
    intro m hm
    rcases List.mem_cons.mp hm with h | h
    · rw [h, combineMoves_face m1 m2 c hc]
      exact hF m1 (by simp)
    · exact ih (fun m hm => hF m (by simp [hm])) m h
  | case4 m1 m2 rest hface hc ih =>
    have he : Solver.optPass (m1 :: m2 :: rest) = ((Solver.optPass rest).1, true) := by
      rw [Solver.optPass]; simp [hface, hc]
    rw [he]
    exact ih (fun m hm => hF m (by simp [hm]))
  | case5 m1 m2 rest hface ih =>
    have he : Solver.optPass (m1 :: m2 :: rest) =
        (m1 :: (Solver.optPass (m2 :: rest)).1, (Solver.optPass (m2 :: rest)).2) := by
      rw [Solver.optPass]; simp [hface]
    rw [he]
    intro m hm
    rcases List.mem_cons.mp hm with h | h
    · exact h ▸ hF m1 (by simp)
    · exact ih (fun m hm => hF m (by simp [hm])) m h

theorem optPass_sem (l : List Move) (hF : ∀ m ∈ l, m.face ≠ Face.F) (s : CState α) :
    CubeState.applyMoves (Solver.optPass l).1 s = CubeState.applyMoves l s := by
  induction l using Solver.optPass.induct generalizing s with
  | case1 => rfl
  | case2 m => rfl
  | case3 m1 m2 rest hface c hc ih =>
    have hFr : ∀ m ∈ rest, m.face ≠ Face.F := fun m hm => hF m (by simp [hm])
    have he1 : (Solver.optPass (m1 :: m2 :: rest)).1 = c :: (Solver.optPass rest).1 := by
      rw [Solver.optPass]; simp [hface, hc]
    rw [he1]
    show CubeState.applyMoves (Solver.optPass rest).1 (CubeState.applyMove c s) =
      CubeState.applyMoves (m1 :: m2 :: rest) s
    rw [ih hFr]
    show CubeState.applyMoves rest (CubeState.applyMove c s) =
      CubeState.applyMoves rest (CubeState.applyMove m2 (CubeState.applyMove m1 s))
    rcases m1 with ⟨f1, a1⟩
    rcases m2 with ⟨f2, a2⟩
    have hfe : f1 = f2 := hface
    subst hfe
    exact congrArg (CubeState.applyMoves rest)
      (combineMoves_sound_some f1 (hF ⟨f1, a1⟩ (by simp)) a1 a2 c hc s).symm
  | case4 m1 m2 rest hface hc ih =>
    have hFr : ∀ m ∈ rest, m.face ≠ Face.F := fun m hm => hF m (by simp [hm])
    have he1 : (Solver.optPass (m1 :: m2 :: rest)).1 = (Solver.optPass rest).1 := by
      rw [Solver.optPass]; simp [hface, hc]
    rw [he1, ih hFr]
    show CubeState.applyMoves rest s =
      CubeState.applyMoves rest (CubeState.applyMove m2 (CubeState.applyMove m1 s))
    rcases m1 with ⟨f1, a1⟩
    rcases m2 with ⟨f2, a2⟩
    have hfe : f1 = f2 := hface
    subst hfe
    exact congrArg (CubeState.applyMoves rest)
      (combineMoves_sound_none f1 (hF ⟨f1, a1⟩ (by simp)) a1 a2 hc s).symm
  | case5 m1 m2 rest hface ih =>
    have he1 : (Solver.optPass (m1 :: m2 :: rest)).1 =
        m1 :: (Solver.optPass (m2 :: rest)).1 := by
      rw [Solver.optPass]; simp [hface]
    rw [he1]
    show CubeState.applyMoves (Solver.optPass (m2 :: rest)).1 (CubeState.applyMove m1 s) =
      CubeState.applyMoves (m1 :: m2 :: rest) s
    exact ih (fun m hm => hF m (by simp [hm])) (CubeState.applyMove m1 s)

theorem optimize_chain (l : List Move) :
    List.Chain' (fun a b : Move => a.face ≠ b.face) (Solver.optimizeMoves l) := by
  induction l using Solver.optimizeMoves.induct with
  | case1 l h ih =>
    rw [Solver.optimizeMoves, dif_pos h]
    exact ih
  | case2 l h =>
    rw [Solver.optimizeMoves, dif_neg h]
    have h' : (Solver.optPass l).2 = false := by
      revert h; cases (Solver.optPass l).2 <;> simp
    obtain ⟨h1, h2⟩ := Solver.optPass_eq_self l h'
    rw [h1]
    exact h2

theorem optimize_noF (l : List Move) (hF : ∀ m ∈ l, m.face ≠ Face.F) :
    ∀ m ∈ Solver.optimizeMoves l, m.face ≠ Face.F := by
  induction l using Solver.optimizeMoves.induct with
  | case1 l h ih =>
    rw [Solver.optimizeMoves, dif_pos h]
    exact ih (optPass_noF l hF)
  | case2 l h =>
    rw [Solver.optimizeMoves, dif_neg h]
    exact optPass_noF l hF

theorem optimize_sem (l : List Move) (hF : ∀ m ∈ l, m.face ≠ Face.F) (s : CState α) :
    CubeState.applyMoves (Solver.optimizeMoves l) s = CubeState.applyMoves l s := by
  induction l using Solver.optimizeMoves.induct generalizing s with
  | case1 l h ih =>
    rw [Solver.optimizeMoves, dif_pos h]
    rw [ih (optPass_noF l hF) s]
    exact optPass_sem l hF s
  | case2 l h =>
    rw [Solver.optimizeMoves, dif_neg h]
    exact optPass_sem l hF s

end OptimizerSemantics

/-- C5 counterexample: the claim that replaying `optimizeMoves(m)` always yields
the same final 54-sticker state as replaying `m` is false on the code.  The
optimizer cancels F followed by F-prime to the empty list, but because
`CubeState.F` and its prime are not mutual inverses (`CubeState.js` lines
220-222 write the R column in reversed order), replaying [F, F-prime] moves
four stickers while replaying the optimized empty list moves none. -/
theorem C5_optimize_replay_counterexample :
    CubeState.applyMoves
        (Solver.optimizeMoves [⟨Face.F, Amt.cw⟩, ⟨Face.F, Amt.ccw⟩]) addrState ≠
      CubeState.applyMoves [⟨Face.F, Amt.cw⟩, ⟨Face.F, Amt.ccw⟩] addrState := by
  have h1 : Solver.optPass [⟨Face.F, Amt.cw⟩, ⟨Face.F, Amt.ccw⟩] = ([], true) := by
    rw [Solver.optPass]
    simp [Solver.combineMoves, Solver.amtVal, Solver.optPass]
  have h0 : Solver.optimizeMoves ([] : List Move) = [] := by
    rw [Solver.optimizeMoves]
    simp [Solver.optPass]
  have h : Solver.optimizeMoves [⟨Face.F, Amt.cw⟩, ⟨Face.F, Amt.ccw⟩] = [] := by
    rw [Solver.optimizeMoves]
    simp [h1, h0]
  rw [h]
  decide

/-- C5 amended: for every move list containing no F-face moves and every cube
state, replaying `Solver.optimizeMoves(m)` with `CubeState.applyMove` produces
exactly the same final 54-sticker state as replaying `m` directly.  (For the
five faces other than F the quarter turn has order 4 and prime is its inverse,
so `combineMoves`' mod-4 arithmetic is sound for the replay semantics.) -/
theorem C5_optimize_replay_amended (l : List Move) (hF : ∀ m ∈ l, m.face ≠ Face.F)
    (s : CState α) :
    CubeState.applyMoves (Solver.optimizeMoves l) s = CubeState.applyMoves l s :=
  optimize_sem l hF s

/-- C5 witness: the amended theorem applied to the concrete F-free list
[R, R-prime] and the address state. -/
theorem C5_optimize_replay_witness :
    (∀ m ∈ ([⟨Face.R, Amt.cw⟩, ⟨Face.R, Amt.ccw⟩] : List Move), m.face ≠ Face.F) ∧
      CubeState.applyMoves
          (Solver.optimizeMoves [⟨Face.R, Amt.cw⟩, ⟨Face.R, Amt.ccw⟩]) addrState =
        CubeState.applyMoves [⟨Face.R, Amt.cw⟩, ⟨Face.R, Amt.ccw⟩] addrState :=
  ⟨by decide, C5_optimize_replay_amended _ (by decide) addrState⟩

/-- C6: `Solver.optimizeMoves` is idempotent; its output contains no adjacent
pair of moves on the same face; and `combineMoves` merges a same-face pair by
adding the quarter-turn values (prime 3, half 2, plain 1) modulo 4, removing
the pair on 0 and mapping 1/2/3 back to plain/half/prime. -/
theorem C6_optimize_idempotent_normal :
    (∀ l : List Move, Solver.optimizeMoves (Solver.optimizeMoves l) = Solver.optimizeMoves l) ∧
    (∀ l : List Move,
      List.Chain' (fun a b : Move => a.face ≠ b.face) (Solver.optimizeMoves l)) ∧
    (∀ (f : Face) (a1 a2 : Amt),
      Solver.combineMoves ⟨f, a1⟩ ⟨f, a2⟩ =
        (match (Solver.amtVal a1 + Solver.amtVal a2) % 4 with
         | 0 => none
         | 1 => some ⟨f, Amt.cw⟩
         | 2 => some ⟨f, Amt.half⟩
         | _ => some ⟨f, Amt.ccw⟩)) := by
  refine ⟨?_, optimize_chain, fun f a1 a2 => combineMoves_eq f f a1 a2⟩
  intro l
  have h5 := Solver.optPass_of_chain _ (optimize_chain l)
  conv_lhs => rw [Solver.optimizeMoves]
  simp [h5]

/-- The no-same-face-twice property of a scramble move list, threaded with the
`lastMove` value the JS loop carries (initially the empty string, modelled as
`none`). -/
def chainFrom : Option Face → List Move → Prop
  | _, [] => True
  | last, m :: ms => some m.face ≠ last ∧ chainFrom (some m.face) ms

theorem chainFrom_chain (ms : List Move) :
    ∀ last, chainFrom last ms → List.Chain' (fun a b : Move => a.face ≠ b.face) ms := by
  induction ms with
  | nil => intro _ _; exact List.chain'_nil
  | cons m tail ih =>
    intro last hc
    match tail, hc with
    | [], _ => exact List.chain'_singleton m
    | m2 :: t2, ⟨_, hc2⟩ =>
      refine List.chain'_cons.mpr ⟨?_, ih (some m.face) hc2⟩
      intro he
      exact hc2.1 (congrArg some he.symm)

namespace CubeState

/-- Fairness of the face-draw stream consumed by `scramble`'s do/while loop
(`CubeState.js` lines 311-313): from every stream position there is a later
draw whose face differs from any given last face.  The JS loop redraws until
the face differs, so on a stream violating this it would never terminate; the
embedding of the unbounded loop carries this hypothesis. -/
def FairStream (rho : Nat → Face) : Prop :=
  ∀ (k : Nat) (f : Option Face), ∃ t, k ≤ t ∧ some (rho t) ≠ f

/-- The do/while draw of `CubeState.scramble`: the first stream position at or
after `k` whose face differs from `last`. -/
def drawIdx (rho : Nat → Face) (h : FairStream rho) (k : Nat) (last : Option Face) : Nat :=
  Nat.find (h k last)

/-- The iteration loop of `CubeState.scramble` (`CubeState.js` lines 309-320):
`n` iterations remain, the face stream is consumed from position `k`, `it`
counts completed iterations (indexing the modifier draws `mu`), `last` is the
previous face, `acc` the accumulated move list. -/
def scrambleGo (rho : Nat → Face) (mu : Nat → Amt) (h : FairStream rho) :
    Nat → Nat → Nat → Option Face → List Move → CState α → List Move × CState α
  | 0, _, _, _, acc, s => (acc, s)
  | n + 1, k, it, last, acc, s =>
    let t := drawIdx rho h k last
    let m : Move := ⟨rho t, mu it⟩
    scrambleGo rho mu h n (t + 1) (it + 1) (some (rho t)) (acc ++ [m]) (applyMove m s)

/-- `CubeState.scramble` (`CubeState.js` lines 303-323) with its random draws
made explicit: `rho t` is the face produced by the t-th evaluation of
`moves[floor(random * 6)]` and `mu i` the modifier drawn in iteration `i` from
the array of plain/prime/double.  Returns the move list (the JS return value,
pre-join) together with the mutated state. -/
def scramble (n : Nat) (rho : Nat → Face) (mu : Nat → Amt) (h : FairStream rho)
    (s : CState α) : List Move × CState α :=
  scrambleGo rho mu h n 0 0 none [] s

end CubeState

theorem scrambleGo_spec (rho : Nat → Face) (mu : Nat → Amt) (h : CubeState.FairStream rho) :
    ∀ (n k it : Nat) (last : Option Face) (acc : List Move) (s : CState α),
      ∃ ms : List Move,
        CubeState.scrambleGo rho mu h n k it last acc s =
            (acc ++ ms, CubeState.applyMoves ms s) ∧
          ms.length = n ∧ chainFrom last ms := by
  intro n
  induction n with
  | zero =>
    intro k it last acc s
    exact ⟨[], by simp [CubeState.scrambleGo, CubeState.applyMoves], rfl, trivial⟩
  | succ n ih =>
    intro k it last acc s
    set t := CubeState.drawIdx rho h k last with ht
    set m : Move := ⟨rho t, mu it⟩ with hm
    obtain ⟨ms, h1, h2, h3⟩ :=
      ih (t + 1) (it + 1) (some (rho t)) (acc ++ [m]) (CubeState.applyMove m s)
    refine ⟨m :: ms, ?_, by simp [h2], ?_⟩
    · calc
        CubeState.scrambleGo rho mu h (n + 1) k it last acc s =
            CubeState.scrambleGo rho mu h n (t + 1) (it + 1) (some (rho t))
              (acc ++ [m]) (CubeState.applyMove m s) := rfl
        _ = ((acc ++ [m]) ++ ms, CubeState.applyMoves ms (CubeState.applyMove m s)) := h1
        _ = (acc ++ (m :: ms), CubeState.applyMoves (m :: ms) s) := by
            rw [List.append_assoc]
            rfl
    · have hspec := Nat.find_spec (h k last)
      exact ⟨hspec.2, h3⟩

/-- C10: for every length n, every outcome of the random draws (any face stream
satisfying the fairness condition the do/while loop needs to terminate, and any
modifier stream) and every initial state, `CubeState.scramble` returns a list
of exactly n moves (each a `Move`, i.e. one of the 6 faces with one of the 3
amounts), no two consecutive returned moves share a face, and the final state
equals replaying exactly the returned moves, in order, on the initial state. -/
theorem C10_scramble_spec (n : Nat) (rho : Nat → Face) (mu : Nat → Amt)
    (h : CubeState.FairStream rho) (s : CState α) :
    (CubeState.scramble n rho mu h s).1.length = n ∧
    List.Chain' (fun a b : Move => a.face ≠ b.face) (CubeState.scramble n rho mu h s).1 ∧
    (CubeState.scramble n rho mu h s).2 =
      CubeState.applyMoves (CubeState.scramble n rho mu h s).1 s := by
  obtain ⟨ms, h1, h2, h3⟩ := scrambleGo_spec rho mu h n 0 0 none [] s
  have he : CubeState.scramble n rho mu h s = (ms, CubeState.applyMoves ms s) := by
    rw [CubeState.scramble, h1]
    simp
  rw [he]
  exact ⟨h2, chainFrom_chain ms none h3, rfl⟩

/-- A concrete fair face stream for the C10 witness: cycle through the JS
`moves` array `['R','L','U','D','F','B']`. -/
def rhoW : Nat → Face := fun k =>
  match k % 6 with
  | 0 => .R | 1 => .L | 2 => .U | 3 => .D | 4 => .F | _ => .B

theorem rhoW_succ_ne (k : Nat) : rhoW (k + 1) ≠ rhoW k := by
  unfold rhoW
  have h6 : k % 6 < 6 := Nat.mod_lt _ (by norm_num)
  have hstep : (k + 1) % 6 = (k % 6 + 1) % 6 := by
    conv_lhs => rw [Nat.add_mod]
  rw [hstep]
  set r := k % 6 with hr
  interval_cases r <;> decide

theorem rhoW_fair : CubeState.FairStream rhoW := by
  intro k f
  by_cases h : some (rhoW k) = f
  · refine ⟨k + 1, Nat.le_succ k, ?_⟩
    rw [← h]
    intro he
    exact rhoW_succ_ne k (Option.some.inj he)
  · exact ⟨k, Nat.le_refl k, h⟩

/-! ### Painted-state pipeline of `Solver.solve`

The painted state delivered by the renderer is a face-keyed object of sticker
color arrays.  To capture malformed inputs as well, a face's array may have any
length; an out-of-range JS read (`undefined`) is modelled as `none`, and the JS
object keys built from sticker colors live in `Option Char` (`none` standing
for the key the string coercion of `undefined` produces).  The JS result
records `{valid, error}` of `validateState`/`validateInvariants` are modelled
as `Option String` (`none` = valid). -/

/-- A painted state: for each face, its array of sticker color characters. -/
abbrev PaintState := Face → List Char

/-- `Solver.faceOrder` (`Solver.js` line 37). -/
def faceOrder : List Face := [.U, .R, .F, .D, .L, .B]

/-- `Solver.getFaceName` (`Solver.js` lines 135-138). -/
def getFaceName : Face → String
  | .U => "Up" | .D => "Down" | .F => "Front" | .B => "Back" | .L => "Left" | .R => "Right"

/-- The one-letter face code, as the JS face key strings. -/
def faceCode : Face → String
  | .U => "U" | .D => "D" | .F => "F" | .B => "B" | .L => "L" | .R => "R"

/-- Display of a JS object key built from a sticker read: `undefined` coerces
to the string "undefined". -/
def keyStr : Option Char → String
  | none => "undefined"
  | some c => String.singleton c

/-- First-match lookup in an insertion-ordered association list, as JS
string-keyed object access. -/
def assocFind {β : Type} (k : Option Char) : List (Option Char × β) → Option β
  | [] => none
  | (k2, v) :: rest => if k2 = k then some v else assocFind k rest

namespace Solver

/-- The center-uniqueness loop of `Solver.validateState` (`Solver.js` lines
93-102): walk the faces in order, recording each center color; a color already
recorded is a duplicate-center error. -/
def validateCenters (p : PaintState) : List Face → List (Option Char × Face) →
    Except String (List (Option Char × Face))
  | [], acc => .ok acc
  | f :: rest, acc =>
    let c := (p f).get? 4
    match assocFind c acc with
    | some f0 => .error ("Duplicate center color " ++ keyStr c ++ " on " ++
        getFaceName f0 ++ " and " ++ getFaceName f ++ ". Centers must be unique.")
    | none => validateCenters p rest (acc ++ [(c, f)])

/-- Increment the count of key `c`; `none` when `c` is not a key of the count
object (the JS `colorCounts[color] === undefined` test, `Solver.js` line 114). -/
def bumpColor (c : Option Char) : List (Option Char × Nat) → Option (List (Option Char × Nat))
  | [] => none
  | (k, n) :: rest =>
    if k = c then some ((k, n + 1) :: rest)
    else (bumpColor c rest).map ((k, n) :: ·)

/-- The sticker-count loop of `Solver.validateState` (`Solver.js` lines
112-119) over one face's array. -/
def countFace (stickers : List Char) (counts : List (Option Char × Nat)) :
    Except String (List (Option Char × Nat)) :=
  match stickers with
  | [] => .ok counts
  | c :: rest =>
    match bumpColor (some c) counts with
    | none => .error ("Sticker color " ++ String.singleton c ++ " does not match any center.")
    | some counts2 => countFace rest counts2

/-- Count all faces' stickers in face order. -/
def countStickers (p : PaintState) (counts : List (Option Char × Nat)) :
    List Face → Except String (List (Option Char × Nat))
  | [] => .ok counts
  | f :: rest =>
    match countFace (p f) counts with
    | .error e => .error e
    | .ok counts2 => countStickers p counts2 rest

/-- The per-color count check of `Solver.validateState` (`Solver.js` lines
121-130), in insertion order. -/
def checkCounts (centers : List (Option Char × Face)) :
    List (Option Char × Nat) → Option String
  | [] => none
  | (c, n) :: rest =>
    let faceName := match assocFind c centers with
      | some f => getFaceName f
      | none => "undefined"
    if n > 9 then
      some ("Too many " ++ keyStr c ++ " stickers (" ++ toString n ++
        "). Maximum is 9 (Center: " ++ faceName ++ ").")
    else if n < 9 then
      some ("Not enough " ++ keyStr c ++ " stickers (" ++ toString n ++
        "). Need 9 (Center: " ++ faceName ++ ").")
    else checkCounts centers rest

/-- `Solver.validateState` (`Solver.js` lines 91-133): center uniqueness, then
per-color sticker counts.  `none` = valid; `some e` = the `{valid:false,
error:e}` record.  The JS messages quote the color with apostrophes; the
transcription drops those quote marks. -/
def validateState (p : PaintState) : Option String :=
  match validateCenters p faceOrder [] with
  | .error e => some e
  | .ok centers =>
    if centers.length ≠ 6 then some "Must have 6 unique center colors."
    else
      match countStickers p (centers.map (fun kv => (kv.1, 0))) faceOrder with
      | .error e => some e
      | .ok counts => checkCounts centers counts

/-- Insertion-ordered association update (JS object assignment). -/
def assocSet (k : Option Char) (v : Face) : List (Option Char × Face) → List (Option Char × Face)
  | [] => [(k, v)]
  | (k2, v2) :: rest => if k2 = k then (k2, v) :: rest else (k2, v2) :: assocSet k v rest

/-- `Solver.mapColorsToFaces` (`Solver.js` lines 140-147). -/
def mapColorsToFaces (p : PaintState) : List (Option Char × Face) :=
  faceOrder.foldl (fun acc f => assocSet ((p f).get? 4) f acc) []

/-- One facelet of `Solver.toFaceletString` (`Solver.js` lines 152-158): map
the painted sticker through `colorToFace`; an unknown color throws. -/
def faceletAt (p : PaintState) (ctf : List (Option Char × Face)) (f : Face) (i : Nat) :
    Except String Face :=
  let color := (p f).get? i
  match assocFind color ctf with
  | none => .error ("Unknown color " ++ keyStr color ++ " at " ++ faceCode f ++
      "[" ++ toString i ++ "]")
  | some mf => .ok mf

def faceletsGo (p : PaintState) (ctf : List (Option Char × Face)) :
    List (Face × Nat) → Except String (List Face)
  | [] => .ok []
  | (f, i) :: rest =>
    match faceletAt p ctf f i with
    | .error e => .error e
    | .ok mf =>
      match faceletsGo p ctf rest with
      | .error e => .error e
      | .ok tl => .ok (mf :: tl)

/-- `Solver.toFaceletString` (`Solver.js` lines 149-162): the 54 facelet
letters, 9 per face in face order.  The JS builds a string of face letters;
the embedding builds the `List Face` of those letters. -/
def toFaceletString (p : PaintState) (ctf : List (Option Char × Face)) :
    Except String (List Face) :=
  faceletsGo p ctf (faceOrder.flatMap fun f => (List.range 9).map fun i => (f, i))

/-- Corner facelet-index triples of `Solver.corners` (`Solver.js` lines 10-19),
in the source's reading order. -/
def cornerFacelets : List (List Nat) :=
  [[8, 9, 20], [6, 18, 38], [0, 36, 47], [2, 45, 11],
   [29, 15, 26], [27, 24, 44], [33, 42, 53], [35, 51, 17]]

/-- Edge facelet-index pairs of `Solver.edges` (`Solver.js` lines 22-35). -/
def edgeFacelets : List (List Nat) :=
  [[5, 10], [7, 19], [3, 37], [1, 46], [32, 16], [28, 25],
   [30, 43], [34, 52], [23, 12], [21, 41], [50, 39], [48, 14]]

/-- `Solver.getCornerName` (`Solver.js` lines 242-246). -/
def getCornerName (i : Nat) : String :=
  (["Top-Right-Front", "Top-Front-Left", "Top-Left-Back", "Top-Back-Right",
    "Bottom-Right-Front", "Bottom-Front-Left", "Bottom-Left-Back",
    "Bottom-Back-Right"].getD i ("Corner " ++ toString i))

/-- `Solver.getEdgeName` (`Solver.js` lines 248-253). -/
def getEdgeName (i : Nat) : String :=
  (["Top-Right", "Top-Front", "Top-Left", "Top-Back",
    "Bottom-Right", "Bottom-Front", "Bottom-Left", "Bottom-Back",
    "Front-Right", "Front-Left", "Back-Left", "Back-Right"].getD i
    ("Edge " ++ toString i))

/-- The `stdCorners` table of `Solver.findCorner` (`Solver.js` lines 205-208). -/
def stdCorners : List (List Face) :=
  [[.U, .R, .F], [.U, .F, .L], [.U, .L, .B], [.U, .B, .R],
   [.D, .F, .R], [.D, .L, .F], [.D, .B, .L], [.D, .R, .B]]

/-- The `solvedEdges` table of `Solver.findEdge` (`Solver.js` lines 224-228). -/
def solvedEdges : List (List Face) :=
  [[.U, .R], [.U, .F], [.U, .L], [.U, .B],
   [.D, .R], [.D, .F], [.D, .L], [.D, .B],
   [.F, .R], [.F, .L], [.B, .L], [.B, .R]]

/-- In-bounds facelet read (`facelets[idx]`); the default is never hit on the
54-facelet lists `toFaceletString` produces. -/
def fget (fl : List Face) (i : Nat) : Face := fl.getD i .U

/-- The orientation scan of `Solver.findCorner` (`Solver.js` lines 212-216). -/
def findOriGo (colors target : List Face) : List Nat → Option Nat
  | [] => none
  | o :: rest =>
    if fget colors 0 = fget target o ∧ fget colors 1 = fget target ((o + 1) % 3) ∧
        fget colors 2 = fget target ((o + 2) % 3) then some o
    else findOriGo colors target rest

/-- `Solver.findCorner` (`Solver.js` lines 204-221): the first standard corner
matching the color triple under cyclic rotation; `none` models the `-1`
sentinel. -/
def findCorner (colors : List Face) : Option (Nat × Nat) :=
  (List.range 8).firstM fun i =>
    (findOriGo colors (stdCorners.getD i []) [0, 1, 2]).map (i, ·)

/-- `Solver.findEdge` (`Solver.js` lines 223-240, the cubie-identification
`findEdge`): the first standard edge matching the pair straight (orientation 0)
or flipped (orientation 1); `none` models the `-1` sentinel. -/
def findEdgeStd (colors : List Face) : Option (Nat × Nat) :=
  (List.range 12).firstM fun i =>
    let target := solvedEdges.getD i []
    if fget colors 0 = fget target 0 ∧ fget colors 1 = fget target 1 then some (i, 0)
    else if fget colors 0 = fget target 1 ∧ fget colors 1 = fget target 0 then some (i, 1)
    else none

/-- The cubie-level representation `Solver.faceletsToCubies` builds
(`Solver.js` lines 164-202). -/
structure Cubies where
  cornerPositions : List Nat
  cornerOrientations : List Nat
  edgePositions : List Nat
  edgeOrientations : List Nat
deriving DecidableEq

/-- The corner loop of `Solver.faceletsToCubies` (`Solver.js` lines 171-184). -/
def cubiesCorners (fl : List Face) : List Nat → Except String (List Nat × List Nat)
  | [] => .ok ([], [])
  | i :: rest =>
    let colors := (cornerFacelets.getD i []).map (fget fl)
    if colors.dedup.length ≠ 3 then
      .error ("Corner piece at " ++ getCornerName i ++ " has duplicate colors.")
    else
      match findCorner colors with
      | none => .error ("Impossible corner piece at " ++ getCornerName i ++
          " (Colors do not form a valid corner).")
      | some (idx, o) =>
        match cubiesCorners fl rest with
        | .error e => .error e
        | .ok (ps, os) => .ok (idx :: ps, o :: os)

/-- The edge loop of `Solver.faceletsToCubies` (`Solver.js` lines 187-199). -/
def cubiesEdges (fl : List Face) : List Nat → Except String (List Nat × List Nat)
  | [] => .ok ([], [])
  | i :: rest =>
    let colors := (edgeFacelets.getD i []).map (fget fl)
    if fget colors 0 = fget colors 1 then
      .error ("Edge piece at " ++ getEdgeName i ++ " has duplicate colors.")
    else
      match findEdgeStd colors with
      | none => .error ("Impossible edge piece at " ++ getEdgeName i ++
          " (Colors do not form a valid edge).")
      | some (idx, o) =>
        match cubiesEdges fl rest with
        | .error e => .error e
        | .ok (ps, os) => .ok (idx :: ps, o :: os)

/-- `Solver.faceletsToCubies` (`Solver.js` lines 164-202). -/
def faceletsToCubies (fl : List Face) : Except String Cubies :=
  match cubiesCorners fl (List.range 8) with
  | .error e => .error e
  | .ok (cp, co) =>
    match cubiesEdges fl (List.range 12) with
    | .error e => .error e
    | .ok (ep, eo) => .ok ⟨cp, co, ep, eo⟩

/-- The inner while-loop of `Solver.calculateParity` (`Solver.js` lines
288-292): cycle-sort position `i`, flipping the parity per swap.  Each swap
settles one position, so `arr.length + 1` fuel always suffices for the
permutations this is called on; the JS loop is unbounded. -/
def paritySwapLoop : Nat → List Nat → Nat → Nat → List Nat × Nat
  | 0, arr, _, parity => (arr, parity)
  | fuel + 1, arr, i, parity =>
    if arr.getD i 0 ≠ i then
      let target := arr.getD i 0
      let vi := arr.getD i 0
      let vt := arr.getD target 0
      paritySwapLoop fuel ((arr.set i vt).set target vi) i (1 - parity)
    else (arr, parity)

def calculateParityGo (arr : List Nat) (parity : Nat) : List Nat → List Nat × Nat
  | [] => (arr, parity)
  | i :: rest =>
    let p2 := paritySwapLoop (arr.length + 1) arr i parity
    calculateParityGo p2.1 p2.2 rest

/-- `Solver.calculateParity` (`Solver.js` lines 284-295). -/
def calculateParity (arr : List Nat) : Nat :=
  (calculateParityGo arr 0 (List.range arr.length)).2

/-- The corner-twist diagnostic of `Solver.validateInvariants`
(`Solver.js` line 267). -/
def cornerTwistMsg : String := "Unsolvable State: One or more corners are twisted physically."

/-- The edge-flip diagnostic of `Solver.validateInvariants` (`Solver.js`
line 272). -/
def edgeFlipMsg : String := "Unsolvable State: One or more edges are flipped physically."

/-- The permutation-parity diagnostic of `Solver.validateInvariants`
(`Solver.js` line 278). -/
def parityMismatchMsg : String :=
  "Unsolvable State: Parity mismatch (likely 2 pieces swapped). Impossible to solve."

/-- `Solver.validateInvariants` (`Solver.js` lines 255-282): piece uniqueness
(JS `Set` size = deduplicated length), corner orientation sum mod 3, edge
orientation sum mod 2, and equality of the two permutation parities.  `none` =
valid. -/
def validateInvariants (c : Cubies) : Option String :=
  if c.cornerPositions.dedup.length ≠ 8 then
    some "Cube contains duplicate corner pieces. Check for duplicate corners."
  else if c.edgePositions.dedup.length ≠ 12 then
    some "Cube contains duplicate edge pieces. Check for duplicate edges."
  else if (c.cornerOrientations.foldl (· + ·) 0) % 3 ≠ 0 then some cornerTwistMsg
  else if (c.edgeOrientations.foldl (· + ·) 0) % 2 ≠ 0 then some edgeFlipMsg
  else if calculateParity c.cornerPositions ≠ calculateParity c.edgePositions then
    some parityMismatchMsg
  else none

end Solver

namespace Solver

/-! ### The layer-by-layer solver (`Solver.solveCube`, `Solver.js` lines
297-1034).  The mutable solver session fields `this.state` and `this.solution`
are threaded as the explicit record `SolverSt`; every bounded JS `for
(attempt...)` retry loop becomes structural recursion on its attempt budget. -/

/-- The solver session state: `this.state` (facelet letters) and
`this.solution`. -/
structure SolverSt where
  st : CState Face
  sol : List Move

/-- Move literals used in the algorithm strings of the solver. -/
def mU : Move := ⟨.U, .cw⟩

def mUp : Move := ⟨.U, .ccw⟩

def mU2 : Move := ⟨.U, .half⟩

def mD : Move := ⟨.D, .cw⟩

def mDp : Move := ⟨.D, .ccw⟩

def mD2 : Move := ⟨.D, .half⟩

def mR : Move := ⟨.R, .cw⟩

def mRp : Move := ⟨.R, .ccw⟩

def mR2 : Move := ⟨.R, .half⟩

def mL : Move := ⟨.L, .cw⟩

def mLp : Move := ⟨.L, .ccw⟩

def mF : Move := ⟨.F, .cw⟩

def mFp : Move := ⟨.F, .ccw⟩

def mB : Move := ⟨.B, .cw⟩

def mBp : Move := ⟨.B, .ccw⟩

/-- `Solver.createState` (`Solver.js` lines 369-379): rebuild the face-keyed
state from the facelet letters, 9 per face in face order (so the cell for face
`f`, slot `i` holds facelet `faceletIndex f i`). -/
def createState (facelets : List Face) : CState Face :=
  fun f i => facelets.getD (faceletIndex f i) .U

/-- `Solver.doMoves` (`Solver.js` lines 381-387) on an already-split move list:
apply each move to the state and append it to the solution. -/
def doMoves (ms : List Move) (o : SolverSt) : SolverSt :=
  ms.foldl (fun o m => { st := Solver.applyMove m o.st, sol := o.sol ++ [m] }) o

/-- One target of `Solver.solveWhiteCross` (`Solver.js` lines 436-441). -/
structure CrossTarget where
  uIdx : Fin 9
  side : Face
  sideIdx : Fin 9

def crossEdges : List CrossTarget :=
  [⟨7, .F, 1⟩, ⟨5, .R, 1⟩, ⟨1, .B, 1⟩, ⟨3, .L, 1⟩]

/-- An entry of the position table of `Solver.findEdge` (`Solver.js` lines
551-564).  The JS `side` field of the four middle-layer entries holds the
two-letter strings FR/FL/BL/BR, which no caller ever reads (the algorithm only
reads `side` for top- and bottom-layer entries); those four entries carry their
`face1` here. -/
structure EdgePos where
  face1 : Face
  idx1 : Fin 9
  face2 : Face
  idx2 : Fin 9
  side : Face

def edgePositions : List EdgePos :=
  [⟨.U, 7, .F, 1, .F⟩, ⟨.U, 5, .R, 1, .R⟩, ⟨.U, 1, .B, 1, .B⟩, ⟨.U, 3, .L, 1, .L⟩,
   ⟨.D, 1, .F, 7, .F⟩, ⟨.D, 5, .R, 7, .R⟩, ⟨.D, 7, .B, 7, .B⟩, ⟨.D, 3, .L, 7, .L⟩,
   ⟨.F, 5, .R, 3, .F⟩, ⟨.F, 3, .L, 5, .F⟩, ⟨.B, 5, .L, 3, .B⟩, ⟨.B, 3, .R, 5, .B⟩]

/-- `Solver.findEdge` (`Solver.js` lines 550-574): first listed position whose
two stickers carry the two colors, in either order. -/
def findEdgeLoc (st : CState Face) (c1 c2 : Face) : Option EdgePos :=
  edgePositions.find? fun p =>
    let a := st p.face1 p.idx1
    let b := st p.face2 p.idx2
    (a == c1 && b == c2) || (a == c2 && b == c1)

/-- The `['F','R','B','L'].indexOf` of the alignment helpers; -1 for the other
faces, as in JS. -/
def sidesIdx (f : Face) : Int :=
  match f with | .F => 0 | .R => 1 | .B => 2 | .L => 3 | _ => -1

/-- `Solver.alignBottomEdge` (`Solver.js` lines 511-522). -/
def alignBottomEdge (targetSide currentSide : Face) (o : SolverSt) : SolverSt :=
  let ti := sidesIdx targetSide
  let ci := sidesIdx currentSide
  if ti = ci then o
  else
    let diff := (ti - ci + 4) % 4
    if diff = 1 then doMoves [mDp] o
    else if diff = 2 then doMoves [mD2] o
    else if diff = 3 then doMoves [mD] o
    else o

/-- `Solver.getBottomEdgeIdx` (`Solver.js` lines 506-509); the map has entries
for F/R/B/L only and every caller passes one of those. -/
def getBottomEdgeIdx (side : Face) : Fin 9 :=
  match side with | .F => 1 | .R => 5 | .B => 7 | .L => 3 | _ => 0

/-- `Solver.getRightOf` (`Solver.js` lines 544-548); for a face outside the
list, JS `indexOf` gives -1 and `order[0] = F` results. -/
def getRightOf (side : Face) : Face :=
  match side with | .F => .R | .R => .B | .B => .L | .L => .F | _ => .F

/-- `Solver.moveMiddleEdgeToBottom` (`Solver.js` lines 524-542): look up the
face pair among FR/FL/BL/BR, then the reversed pair; no move otherwise. -/
def moveMiddleEdgeToBottom (loc : EdgePos) (o : SolverSt) : SolverSt :=
  let edgeAlg : Face → Face → Option (List Move) := fun a b =>
    match a, b with
    | .F, .R => some [mRp, mDp, mR]
    | .F, .L => some [mL, mD, mLp]
    | .B, .L => some [mLp, mDp, mL]
    | .B, .R => some [mR, mD, mRp]
    | _, _ => none
  match edgeAlg loc.face1 loc.face2 with
  | some ms => doMoves ms o
  | none =>
    match edgeAlg loc.face2 loc.face1 with
    | some ms => doMoves ms o
    | none => o

/-- `Solver.solveWhiteCrossEdge` (`Solver.js` lines 448-504), with its
20-attempt budget as recursion fuel. -/
def solveWhiteCrossEdge (t : CrossTarget) : Nat → SolverSt → SolverSt
  | 0, o => o
  | n + 1, o =>
    if o.st .U t.uIdx = .U ∧ o.st t.side t.sideIdx = t.side then o
    else
      match findEdgeLoc o.st .U t.side with
      | none => solveWhiteCrossEdge t n o
      | some loc =>
        if loc.face1 = .U then
          if loc.idx1 = t.uIdx then
            solveWhiteCrossEdge t n (doMoves [⟨t.side, .cw⟩, ⟨t.side, .cw⟩] o)
          else
            solveWhiteCrossEdge t n (doMoves [⟨loc.side, .cw⟩, ⟨loc.side, .cw⟩] o)
        else if loc.face2 = .U then
          let sideWithWhite := loc.face1
          solveWhiteCrossEdge t n
            (alignBottomEdge t.side sideWithWhite (doMoves [⟨sideWithWhite, .ccw⟩] o))
        else if loc.face1 = .D ∨ loc.face2 = .D then
          let o2 := alignBottomEdge t.side loc.side o
          if o2.st .D (getBottomEdgeIdx t.side) = .U then
            solveWhiteCrossEdge t n (doMoves [⟨t.side, .cw⟩, ⟨t.side, .cw⟩] o2)
          else
            solveWhiteCrossEdge t n
              (doMoves [⟨t.side, .ccw⟩, mUp, ⟨getRightOf t.side, .cw⟩, mU] o2)
        else
          solveWhiteCrossEdge t n (moveMiddleEdgeToBottom loc o)

/-- `Solver.solveWhiteCross` (`Solver.js` lines 435-446). -/
def solveWhiteCross (o : SolverSt) : SolverSt :=
  crossEdges.foldl (fun o t => solveWhiteCrossEdge t 20 o) o

/-- One target of `Solver.solveWhiteCorners` (`Solver.js` lines 578-583). -/
structure CornerTarget where
  uIdx : Fin 9
  side1 : Face
  side2 : Face
  idx1 : Fin 9
  idx2 : Fin 9

def whiteCornerTargets : List CornerTarget :=
  [⟨8, .F, .R, 2, 0⟩, ⟨6, .L, .F, 2, 0⟩, ⟨0, .B, .L, 2, 0⟩, ⟨2, .R, .B, 2, 0⟩]

/-- An entry of the corner-position table of `Solver.findCornerLocation`
(`Solver.js` lines 646-655): top entries carry `rightSide`, bottom entries
`bottomSide`. -/
inductive CornerLoc where
  | top (uIdx : Fin 9) (s1 : Face) (i1 : Fin 9) (s2 : Face) (i2 : Fin 9) (rightSide : Face)
  | bottom (dIdx : Fin 9) (s1 : Face) (i1 : Fin 9) (s2 : Face) (i2 : Fin 9) (bottomSide : Face)

def cornerLocations : List CornerLoc :=
  [.top 8 .F 2 .R 0 .R, .top 6 .L 2 .F 0 .F, .top 0 .B 2 .L 0 .L, .top 2 .R 2 .B 0 .B,
   .bottom 2 .F 8 .R 6 .R, .bottom 0 .L 8 .F 6 .F, .bottom 6 .B 8 .L 6 .L,
   .bottom 8 .R 8 .B 6 .B]

def cornerLocColors (st : CState Face) : CornerLoc → List Face
  | .top uIdx s1 i1 s2 i2 _ => [st .U uIdx, st s1 i1, st s2 i2]
  | .bottom dIdx s1 i1 s2 i2 _ => [st .D dIdx, st s1 i1, st s2 i2]

/-- `Solver.findCornerLocation` (`Solver.js` lines 644-678). -/
def findCornerLocation (st : CState Face) (c1 c2 c3 : Face) : Option CornerLoc :=
  cornerLocations.find? fun pos =>
    let colors := cornerLocColors st pos
    colors.contains c1 && colors.contains c2 && colors.contains c3

/-- `Solver.alignBottomCorner` (`Solver.js` lines 680-691), a verbatim twin of
`alignBottomEdge`. -/
def alignBottomCorner (targetSide currentSide : Face) (o : SolverSt) : SolverSt :=
  let ti := sidesIdx targetSide
  let ci := sidesIdx currentSide
  if ti = ci then o
  else
    let diff := (ti - ci + 4) % 4
    if diff = 1 then doMoves [mDp] o
    else if diff = 2 then doMoves [mD2] o
    else if diff = 3 then doMoves [mD] o
    else o

/-- The three-way sticker classification of
`Solver.getWhitePositionInBottomCorner`. -/
inductive WhitePos where
  | down | right | front

structure SlotInfo where
  dIdx : Fin 9
  fSide : Face
  fIdx : Fin 9
  rSide : Face
  rIdx : Fin 9

/-- The `slotMap` of `Solver.getWhitePositionInBottomCorner` (`Solver.js` lines
700-705); every caller passes a `side2` among R/F/L/B. -/
def slotMap (side2 : Face) : SlotInfo :=
  match side2 with
  | .R => ⟨2, .F, 8, .R, 6⟩
  | .F => ⟨0, .L, 8, .F, 6⟩
  | .L => ⟨6, .B, 8, .L, 6⟩
  | .B => ⟨8, .R, 8, .B, 6⟩
  | _ => ⟨2, .F, 8, .R, 6⟩

/-- `Solver.getWhitePositionInBottomCorner` (`Solver.js` lines 693-711). -/
def getWhitePositionInBottomCorner (st : CState Face) (t : CornerTarget) : WhitePos :=
  let slot := slotMap t.side2
  if st .D slot.dIdx = .U then .down
  else if st slot.rSide slot.rIdx = .U then .right
  else .front

/-- `Solver.solveWhiteCorner` (`Solver.js` lines 590-642), 30-attempt budget. -/
def solveWhiteCorner (t : CornerTarget) : Nat → SolverSt → SolverSt
  | 0, o => o
  | n + 1, o =>
    let rightSide := t.side2
    if o.st .U t.uIdx = .U ∧ o.st t.side1 t.idx1 = t.side1 ∧
        o.st t.side2 t.idx2 = t.side2 then o
    else
      let topColors := [o.st .U t.uIdx, o.st t.side1 t.idx1, o.st t.side2 t.idx2]
      if topColors.contains .U ∧ topColors.contains t.side1 ∧
          topColors.contains t.side2 then
        solveWhiteCorner t n (doMoves [⟨rightSide, .ccw⟩, mDp, ⟨rightSide, .cw⟩] o)
      else
        match findCornerLocation o.st .U t.side1 t.side2 with
        | none => solveWhiteCorner t n o
        | some (.top _ _ _ _ _ rs) =>
          solveWhiteCorner t n (doMoves [⟨rs, .ccw⟩, mDp, ⟨rs, .cw⟩] o)
        | some (.bottom _ _ _ _ _ bs) =>
          let o2 := alignBottomCorner t.side2 bs o
          match getWhitePositionInBottomCorner o2.st t with
          | .down => solveWhiteCorner t n (doMoves
              [⟨rightSide, .ccw⟩, mD2, ⟨rightSide, .cw⟩, mD,
               ⟨rightSide, .ccw⟩, mDp, ⟨rightSide, .cw⟩] o2)
          | .right => solveWhiteCorner t n
              (doMoves [⟨rightSide, .ccw⟩, mDp, ⟨rightSide, .cw⟩] o2)
          | .front => solveWhiteCorner t n
              (doMoves [⟨t.side1, .cw⟩, mD, ⟨t.side1, .ccw⟩] o2)

/-- `Solver.solveWhiteCorners` (`Solver.js` lines 577-588). -/
def solveWhiteCorners (o : SolverSt) : SolverSt :=
  whiteCornerTargets.foldl (fun o t => solveWhiteCorner t 30 o) o

/-- One slot of `Solver.solveMiddleLayer` (`Solver.js` lines 715-720). -/
structure MidSlot where
  fIdx : Fin 9
  sIdx : Fin 9
  fSide : Face
  sSide : Face

def middleSlots : List MidSlot :=
  [⟨5, 3, .F, .R⟩, ⟨5, 3, .R, .B⟩, ⟨5, 3, .B, .L⟩, ⟨5, 3, .L, .F⟩]

structure TopEdgeEntry where
  idx : Fin 9
  side : Face
  topIdx : Fin 9

structure MidEdgeEntry where
  s1 : Face
  i1 : Fin 9
  s2 : Face
  i2 : Fin 9

/-- A location found by `Solver.findMiddleEdge`: top-layer (JS layer 'T') or
middle-layer (JS layer 'M'). -/
inductive MidLoc where
  | topE (e : TopEdgeEntry)
  | midE (e : MidEdgeEntry)

def topEdgeEntries : List TopEdgeEntry :=
  [⟨1, .F, 7⟩, ⟨5, .R, 7⟩, ⟨7, .B, 7⟩, ⟨3, .L, 7⟩]

def midEdgeEntries : List MidEdgeEntry :=
  [⟨.F, 5, .R, 3⟩, ⟨.R, 5, .B, 3⟩, ⟨.B, 5, .L, 3⟩, ⟨.L, 5, .F, 3⟩]

/-- `Solver.findMiddleEdge` (`Solver.js` lines 764-798). -/
def findMiddleEdge (st : CState Face) (c1 c2 : Face) : Option MidLoc :=
  match topEdgeEntries.find? (fun e =>
      let col1 := st .D e.idx
      let col2 := st e.side e.topIdx
      (col1 == c1 && col2 == c2) || (col1 == c2 && col2 == c1)) with
  | some e => some (.topE e)
  | none =>
    match midEdgeEntries.find? (fun e =>
        let col1 := st e.s1 e.i1
        let col2 := st e.s2 e.i2
        (col1 == c1 && col2 == c2) || (col1 == c2 && col2 == c1)) with
    | some e => some (.midE e)
    | none => none

/-- `Solver.popMiddleEdge` (`Solver.js` lines 800-811).  For a top-layer
location the JS `loc.s1`/`loc.s2` are `undefined`, so the trailing `else` fires
there too. -/
def popMiddleEdge (loc : MidLoc) (o : SolverSt) : SolverSt :=
  match loc with
  | .midE e =>
    if e.s1 = .F ∧ e.s2 = .R then doMoves [mDp, mRp, mD, mR, mD, mF, mDp, mFp] o
    else if e.s1 = .R ∧ e.s2 = .B then doMoves [mDp, mBp, mD, mB, mD, mR, mDp, mRp] o
    else if e.s1 = .B ∧ e.s2 = .L then doMoves [mDp, mLp, mD, mL, mD, mB, mDp, mBp] o
    else doMoves [mDp, mFp, mD, mF, mD, mL, mDp, mLp] o
  | .topE _ => doMoves [mDp, mFp, mD, mF, mD, mL, mDp, mLp] o

/-- `Solver.alignTopEdgeWithSide` (`Solver.js` lines 813-831). -/
def alignTopEdgeWithSide (sideColor : Face) (o : SolverSt) : SolverSt :=
  let sides : List (Nat × Face) := [(0, .F), (1, .R), (2, .B), (3, .L)]
  match sides.find? (fun e => o.st e.2 7 == sideColor) with
  | none => o
  | some e =>
    let targetIdx := sidesIdx sideColor
    let diff := (targetIdx - (e.1 : Int) + 4) % 4
    if diff = 1 then doMoves [mDp] o
    else if diff = 2 then doMoves [mD2] o
    else if diff = 3 then doMoves [mD] o
    else o

/-- `Solver.solveMiddleEdge` (`Solver.js` lines 727-762), 20-attempt budget. -/
def solveMiddleEdge (slot : MidSlot) : Nat → SolverSt → SolverSt
  | 0, o => o
  | n + 1, o =>
    if o.st slot.fSide slot.fIdx = slot.fSide ∧ o.st slot.sSide slot.sIdx = slot.sSide then o
    else
      match findMiddleEdge o.st slot.fSide slot.sSide with
      | none => solveMiddleEdge slot n o
      | some (.midE e) => solveMiddleEdge slot n (popMiddleEdge (.midE e) o)
      | some (.topE e) =>
        let edgeTopColor := o.st e.side e.topIdx
        let o2 := alignTopEdgeWithSide edgeTopColor o
        if e.side = slot.fSide then
          solveMiddleEdge slot n (doMoves
            [mDp, ⟨slot.sSide, .ccw⟩, mD, ⟨slot.sSide, .cw⟩,
             mD, ⟨slot.fSide, .cw⟩, mDp, ⟨slot.fSide, .ccw⟩] o2)
        else
          solveMiddleEdge slot n (doMoves
            [mD, ⟨slot.fSide, .cw⟩, mDp, ⟨slot.fSide, .ccw⟩,
             mDp, ⟨slot.sSide, .ccw⟩, mD, ⟨slot.sSide, .cw⟩] o2)

/-- `Solver.solveMiddleLayer` (`Solver.js` lines 714-725). -/
def solveMiddleLayer (o : SolverSt) : SolverSt :=
  middleSlots.foldl (fun o slot => solveMiddleEdge slot 20 o) o

/-- The pattern classification of `Solver.getYellowCrossPattern`. -/
inductive YPattern where
  | cross | dot | line | ell | unknown
deriving DecidableEq

/-- `Solver.getYellowCrossPattern` (`Solver.js` lines 857-873); `ell` is the
JS 'L' pattern. -/
def getYellowCrossPattern (st : CState Face) : YPattern :=
  let top := st .D 1 = .D
  let right := st .D 5 = .D
  let bottom := st .D 7 = .D
  let left := st .D 3 = .D
  let count := (if top then 1 else 0) + (if right then 1 else 0) +
    (if bottom then 1 else 0) + (if left then 1 else 0)
  if count = 4 then .cross
  else if count = 0 then .dot
  else if count = 2 then
    if (top ∧ bottom) ∨ (left ∧ right) then .line else .ell
  else .unknown

/-- `Solver.orientYellowL` (`Solver.js` lines 875-881). -/
def orientYellowL : Nat → SolverSt → SolverSt
  | 0, o => o
  | n + 1, o =>
    if o.st .D 7 = .D ∧ o.st .D 3 = .D then o
    else orientYellowL n (doMoves [mD] o)

def yellowCrossAlg : List Move := [mF, mD, mR, mDp, mRp, mFp]

/-- `Solver.solveYellowCross` (`Solver.js` lines 834-855), 10-attempt budget. -/
def solveYellowCross : Nat → SolverSt → SolverSt
  | 0, o => o
  | n + 1, o =>
    match getYellowCrossPattern o.st with
    | .cross => o
    | .dot => solveYellowCross n (doMoves yellowCrossAlg o)
    | .line =>
      let o2 := if o.st .D 3 ≠ .D then doMoves [mD] o else o
      solveYellowCross n (doMoves yellowCrossAlg o2)
    | .ell => solveYellowCross n (doMoves yellowCrossAlg (orientYellowL 4 o))
    | .unknown => solveYellowCross n o

/-- `Solver.countYellowCorners` (`Solver.js` lines 898-906). -/
def countYellowCorners (st : CState Face) : Nat :=
  (if st .D 0 = .D then 1 else 0) + (if st .D 2 = .D then 1 else 0) +
  (if st .D 6 = .D then 1 else 0) + (if st .D 8 = .D then 1 else 0)

/-- The rotate-until-check loops of `Solver.positionForYellowCorners`
(`Solver.js` lines 908-928), four attempts each. -/
def positionLoop (check : SolverSt → Bool) : Nat → SolverSt → SolverSt
  | 0, o => o
  | n + 1, o => if check o then o else positionLoop check n (doMoves [mD] o)

def positionForYellowCorners (yc : Nat) (o : SolverSt) : SolverSt :=
  if yc = 0 then positionLoop (fun o => o.st .L 8 == .D) 4 o
  else if yc = 1 then positionLoop (fun o => o.st .D 0 == .D) 4 o
  else if yc = 2 then positionLoop (fun o => o.st .R 6 == .D && o.st .R 8 == .D) 4 o
  else o

def suneAlg : List Move := [mR, mD, mRp, mD, mR, mD2, mRp]

/-- `Solver.solveYellowFace` (`Solver.js` lines 884-896), 20-attempt budget. -/
def solveYellowFace : Nat → SolverSt → SolverSt
  | 0, o => o
  | n + 1, o =>
    let yc := countYellowCorners o.st
    if yc = 4 then o
    else solveYellowFace n (doMoves suneAlg (positionForYellowCorners yc o))

/-- One last-layer corner of `Solver.cornersPositioned` /
`findCorrectlyPositionedCorner` (`Solver.js` lines 960-999). -/
structure LLCorner where
  d : Fin 9
  s1 : Face
  i1 : Fin 9
  s2 : Face
  i2 : Fin 9
  c1 : Face
  c2 : Face
  pos : Nat

def llCorners : List LLCorner :=
  [⟨0, .F, 6, .L, 8, .F, .L, 0⟩, ⟨2, .R, 6, .F, 8, .R, .F, 1⟩,
   ⟨6, .L, 6, .B, 8, .L, .B, 2⟩, ⟨8, .B, 6, .R, 8, .B, .R, 3⟩]

def llCornerColors (st : CState Face) (c : LLCorner) : List Face :=
  [st .D c.d, st c.s1 c.i1, st c.s2 c.i2]

/-- `Solver.cornersPositioned` (`Solver.js` lines 958-978). -/
def cornersPositioned (st : CState Face) : Bool :=
  llCorners.all fun c =>
    let colors := llCornerColors st c
    colors.contains .D && colors.contains c.c1 && colors.contains c.c2

/-- `Solver.findCorrectlyPositionedCorner` (`Solver.js` lines 980-999); `none`
models the `-1` sentinel. -/
def findCorrectlyPositionedCorner (st : CState Face) : Option Nat :=
  (llCorners.find? fun c =>
    let colors := llCornerColors st c
    colors.contains .D && colors.contains c.c1 && colors.contains c.c2).map (·.pos)

/-- `Solver.rotateDToPosition` (`Solver.js` lines 1001-1008). -/
def rotateDToPosition (pos : Nat) (o : SolverSt) : SolverSt :=
  let times := [2, 1, 0, 3].getD pos 0
  (List.range times).foldl (fun o _ => doMoves [mD] o) o

def llCornerAlg : List Move := [mD, mRp, mDp, mL, mD, mR, mDp, mLp]

/-- `Solver.positionLastLayerCorners` (`Solver.js` lines 942-956), 10-attempt
budget. -/
def positionLastLayerCorners : Nat → SolverSt → SolverSt
  | 0, o => o
  | n + 1, o =>
    if cornersPositioned o.st then o
    else
      let o2 := match findCorrectlyPositionedCorner o.st with
        | some c => rotateDToPosition c o
        | none => o
      positionLastLayerCorners n (doMoves llCornerAlg o2)

def uPermAlg : List Move := [mR2, mD, mR, mD, mRp, mDp, mRp, mDp, mRp, mD, mRp]

/-- `Solver.edgesSolved` (`Solver.js` lines 1021-1026). -/
def edgesSolved (st : CState Face) : Bool :=
  st .F 7 == .F && st .R 7 == .R && st .B 7 == .B && st .L 7 == .L

/-- `Solver.positionLastLayerEdges` (`Solver.js` lines 1010-1019), 15-attempt
budget. -/
def positionLastLayerEdges : Nat → SolverSt → SolverSt
  | 0, o => o
  | n + 1, o =>
    if edgesSolved o.st then o
    else positionLastLayerEdges n (doMoves uPermAlg o)

/-- `Solver.alignLastLayer` (`Solver.js` lines 1028-1034). -/
def alignLastLayer : Nat → SolverSt → SolverSt
  | 0, o => o
  | n + 1, o =>
    if o.st .F 7 = .F ∧ o.st .R 7 = .R then o
    else alignLastLayer n (doMoves [mD] o)

/-- `Solver.solveLastLayer` (`Solver.js` lines 931-940). -/
def solveLastLayer (o : SolverSt) : SolverSt :=
  alignLastLayer 4 (positionLastLayerEdges 15 (positionLastLayerCorners 10 o))

/-- A phase record of `Solver.solveCube`: name, icon, its slice of the move
list, description. -/
structure Phase where
  name : String
  icon : String
  moves : List Move
  descr : String
deriving DecidableEq

/-- `Solver.solveCube` (`Solver.js` lines 300-367): run the six phases from the
state created from the facelets, recording each phase's slice of the growing
solution list. -/
def solveCube (facelets : List Face) : List Move × List Phase :=
  let o0 : SolverSt := { st := createState facelets, sol := [] }
  let o1 := solveWhiteCross o0
  let ph1 : Phase := ⟨"White Cross", "➕", o1.sol.drop 0, "Creating the white cross on top"⟩
  let o2 := solveWhiteCorners o1
  let ph2 : Phase := ⟨"First Layer", "🧱", o2.sol.drop o1.sol.length, "Inserting white corners"⟩
  let o3 := solveMiddleLayer o2
  let ph3 : Phase := ⟨"Second Layer", "📦", o3.sol.drop o2.sol.length, "Solving middle layer edges"⟩
  let o4 := solveYellowCross 10 o3
  let ph4 : Phase := ⟨"Yellow Cross", "✚", o4.sol.drop o3.sol.length, "Creating yellow cross"⟩
  let o5 := solveYellowFace 20 o4
  let ph5 : Phase := ⟨"Yellow Face", "🟡", o5.sol.drop o4.sol.length, "Orienting yellow corners"⟩
  let o6 := solveLastLayer o5
  let ph6 : Phase := ⟨"Final Layer", "✨", o6.sol.drop o5.sol.length, "Permuting last layer"⟩
  (o6.sol, [ph1, ph2, ph3, ph4, ph5, ph6])

end Solver

namespace Solver

/-- The structured result of `Solver.solve` (`Solver.js` lines 45, 79-88). -/
structure SolveResult where
  success : Bool
  solution : List Move
  phases : List Phase
  error : Option String
deriving DecidableEq

/-- The body of `Solver.solve` inside its try block (`Solver.js` lines 48-84).
`Except.error` is a JS exception escaping the body: of the steps, only
`toFaceletString` throws (`faceletsToCubies` and the validators return their
errors as data, exactly as in the source). -/
def solveBody (p : PaintState) : Except String SolveResult :=
  match validateState p with
  | some e => .ok ⟨false, [], [], some e⟩
  | none =>
    match toFaceletString p (mapColorsToFaces p) with
    | .error e => .error e
    | .ok facelets =>
      match faceletsToCubies facelets with
      | .error e => .ok ⟨false, [], [], some e⟩
      | .ok cubies =>
        match validateInvariants cubies with
        | some e => .ok ⟨false, [], [], some e⟩
        | none =>
          let result := solveCube facelets
          .ok ⟨true, optimizeMoves result.1, result.2, none⟩

/-- `Solver.solve` (`Solver.js` lines 47-89): the try/catch wrapper converting
any exception thrown by the body into the structured failure result of lines
85-88. -/
def solve (p : PaintState) : SolveResult :=
  match solveBody p with
  | .ok r => r
  | .error e => ⟨false, [], [], some ("Solver error: " ++ e)⟩

/-- Caller-state-threaded read steps for the purity claim: each step of `solve`
that touches the caller's painted-state object takes it and hands it back
(`validateState`, `mapColorsToFaces` and `toFaceletString` only read `p`;
`solveCube` operates on the separate state `createState` builds from the
facelet letters, `Solver.js` line 301). -/
def validateStateT (p : PaintState) : Option String × PaintState := (validateState p, p)

def mapColorsToFacesT (p : PaintState) : List (Option Char × Face) × PaintState :=
  (mapColorsToFaces p, p)

def toFaceletStringT (ctf : List (Option Char × Face)) (p : PaintState) :
    Except String (List Face) × PaintState :=
  (toFaceletString p ctf, p)

/-- `Solver.solve` with the caller's painted state threaded through every step
that reads it, returning the result together with the caller's state as the
call leaves it. -/
def solveTracked (p : PaintState) : SolveResult × PaintState :=
  let v := validateStateT p
  match v.1 with
  | some e => (⟨false, [], [], some e⟩, v.2)
  | none =>
    let ctf := mapColorsToFacesT v.2
    let fl := toFaceletStringT ctf.1 ctf.2
    match fl.1 with
    | .error e => (⟨false, [], [], some ("Solver error: " ++ e)⟩, fl.2)
    | .ok facelets =>
      match faceletsToCubies facelets with
      | .error e => (⟨false, [], [], some e⟩, fl.2)
      | .ok cubies =>
        match validateInvariants cubies with
        | some e => (⟨false, [], [], some e⟩, fl.2)
        | none =>
          let result := solveCube facelets
          (⟨true, optimizeMoves result.1, result.2, none⟩, fl.2)

end Solver

theorem solveTracked_eq (p : PaintState) :
    Solver.solveTracked p = (Solver.solve p, p) := by
  unfold Solver.solveTracked Solver.solve Solver.solveBody Solver.validateStateT
    Solver.mapColorsToFacesT Solver.toFaceletStringT
  cases hv : Solver.validateState p with
  | some e => simp
  | none =>
    cases hf : Solver.toFaceletString p (Solver.mapColorsToFaces p) with
    | error e => simp [hf]
    | ok fl =>
      cases hc : Solver.faceletsToCubies fl with
      | error e => simp [hf, hc]
      | ok cb =>
        cases hi : Solver.validateInvariants cb with
        | some e => simp [hf, hc, hi]
        | none => simp [hf, hc, hi]

/-- Decidable equality for `Except`, used to evaluate pipeline hypotheses on
concrete witness inputs. -/
instance {ε α : Type} [DecidableEq ε] [DecidableEq α] : DecidableEq (Except ε α) := fun a b =>
  match a, b with
  | .error e1, .error e2 =>
    if h : e1 = e2 then .isTrue (by rw [h])
    else .isFalse (fun hh => h (by cases hh; rfl))
  | .ok v1, .ok v2 =>
    if h : v1 = v2 then .isTrue (by rw [h])
    else .isFalse (fun hh => h (by cases hh; rfl))
  | .error _, .ok _ => .isFalse (fun hh => Except.noConfusion hh)
  | .ok _, .error _ => .isFalse (fun hh => Except.noConfusion hh)

/-- C9: `Solver.solve` is pure with respect to its caller's input.  In the
caller-state-threaded embedding, the painted state handed back after the call
is the one passed in (no step writes to it — `solveCube` mutates only the
internally-owned copy `createState` builds), the threaded run returns exactly
`Solver.solve`'s result, and a repeated call on the handed-back state is
identical, so repeated calls on the same input are independent. -/
theorem C9_solve_pure (p : PaintState) :
    (Solver.solveTracked p).2 = p ∧
    (Solver.solveTracked p).1 = Solver.solve p ∧
    Solver.solveTracked ((Solver.solveTracked p).2) = Solver.solveTracked p := by
  simp [solveTracked_eq]

/-- C4: for every input painted state (any face-to-sticker-array mapping,
including malformed arrays of any length and unknown colors), `Solver.solve`
returns a structured result and never propagates a fault: the result either
reports success with no error, or reports failure with a diagnostic string
present.  The one throwing step of the body (`toFaceletString`) is converted by
the try/catch of `Solver.js` lines 85-88 into the same structured shape. -/
theorem C4_solve_never_raises (p : PaintState) :
    ((Solver.solve p).success = true ∧ (Solver.solve p).error = none) ∨
    ((Solver.solve p).success = false ∧ (Solver.solve p).error.isSome = true) := by
  unfold Solver.solve Solver.solveBody
  cases hv : Solver.validateState p with
  | some e => simp
  | none =>
    cases hf : Solver.toFaceletString p (Solver.mapColorsToFaces p) with
    | error e => simp [hf]
    | ok fl =>
      cases hc : Solver.faceletsToCubies fl with
      | error e => simp [hf, hc]
      | ok cb =>
        cases hi : Solver.validateInvariants cb with
        | some e => simp [hf, hc, hi]
        | none => simp [hf, hc, hi]

/-- The painted state of the solved cube: the canonical colors of
`CubeState.reset` (`CubeState.js` lines 12-19) read out face by face. -/
def solvedPaint : PaintState := fun f =>
  match f with
  | .U => List.replicate 9 'W'
  | .D => List.replicate 9 'Y'
  | .F => List.replicate 9 'G'
  | .B => List.replicate 9 'B'
  | .L => List.replicate 9 'O'
  | .R => List.replicate 9 'R'

/-- C1: evaluation of the code at the failing input.  The claim says every
state reachable from solved (in particular every scramble output) is solved
with success = true and a replayable solution; but `Solver.solve` rejects even
the solved cube itself with success = false and an "Impossible corner piece"
diagnostic.  The four bottom-corner facelet triples of `Solver.corners`
(`Solver.js` lines 15-18) are listed in the mirrored cyclic order relative to
the `stdCorners` table of `findCorner` (lines 205-208), so the color triple
read at the first bottom corner of any physically consistent painted state
never matches any rotation of a standard corner. -/
theorem C1_solve_rejects_solved :
    Solver.solve solvedPaint =
      ⟨false, [], [],
        some "Impossible corner piece at Bottom-Right-Front (Colors do not form a valid corner)."⟩ := by
  decide

/-- The all-white painted state (every sticker the color W), which violates
both the center-uniqueness and the color-count validation categories. -/
def allWhitePaint : PaintState := fun _ => List.replicate 9 'W'

/-- The claim's center-uniqueness category, from the source's check: the six
center reads must be six distinct keys. -/
def violatesCenterUniqueness (p : PaintState) : Bool :=
  (faceOrder.map fun f => (p f).get? 4).dedup.length ≠ 6

/-- The claim's color-count category, from the source's check: every painted
sticker's color must occur exactly 9 times over all faces. -/
def violatesColorCounts (p : PaintState) : Bool :=
  !(faceOrder.all fun f => (p f).all fun c => (faceOrder.flatMap p).count c = 9)

/-- The ordered list of diagnostics surfaced by the solve entry point: the
result's single `error` field read as a list. -/
def solveErrors (p : PaintState) : List String :=
  match (Solver.solve p).error with
  | some e => [e]
  | none => []

/-- C3 counterexample: the all-white painted state violates two validation
invariant categories (center uniqueness and color counts), yet the result
surfaced by `Solver.solve` carries exactly one diagnostic — the first failing
check's message — not an entry per violated category. -/
theorem C3_diagnostics_counterexample :
    violatesCenterUniqueness allWhitePaint = true ∧
    violatesColorCounts allWhitePaint = true ∧
    solveErrors allWhitePaint =
      ["Duplicate center color W on Up and Right. Centers must be unique."] ∧
    (solveErrors allWhitePaint).length ≠ 2 := by
  decide

/-- C3 amended: when validation fails, the solve entry point surfaces a single
human-readable diagnostic — the first violated check's message, short-circuit —
in the result's `error` field; violations of later categories are not
enumerated (the source returns `{valid, error}` with one string, not a list). -/
theorem C3_diagnostics_amended (p : PaintState) (e : String)
    (hv : Solver.validateState p = some e) :
    Solver.solve p = ⟨false, [], [], some e⟩ ∧ solveErrors p = [e] := by
  have h1 : Solver.solve p = ⟨false, [], [], some e⟩ := by
    unfold Solver.solve Solver.solveBody
    rw [hv]
  exact ⟨h1, by simp [solveErrors, h1]⟩

/-- C3 witness: the amended theorem applied to the all-white painted state. -/
theorem C3_diagnostics_witness :
    Solver.solve allWhitePaint =
      ⟨false, [], [],
        some "Duplicate center color W on Up and Right. Centers must be unique."⟩ ∧
    solveErrors allWhitePaint =
      ["Duplicate center color W on Up and Right. Centers must be unique."] :=
  C3_diagnostics_amended allWhitePaint _ (by decide)

/-- C2: for every painted state that passes the center-uniqueness and
color-count checks (`validateState`), the facelet conversion, and the
piece-wellformedness check (`faceletsToCubies` succeeds) and whose derived
corner and edge identities are each duplicate-free, `Solver.solve` refuses to
solve (success = false) exactly when the derived corner orientations do not
sum to 0 mod 3, or the derived edge orientations do not sum to 0 mod 2, or the
permutation parities of the corner- and edge-identity assignments (as computed
by `calculateParity`) differ; and each of the three refusals carries its own
distinct "Unsolvable State" diagnostic, in the source's check order. -/
theorem C2_unsolvable_iff_invariants (p : PaintState) (fl : List Face) (cb : Solver.Cubies)
    (hv : Solver.validateState p = none)
    (hf : Solver.toFaceletString p (Solver.mapColorsToFaces p) = .ok fl)
    (hc : Solver.faceletsToCubies fl = .ok cb)
    (hnc : cb.cornerPositions.dedup.length = 8)
    (hne : cb.edgePositions.dedup.length = 12) :
    ((Solver.solve p).success = false ↔
      ((cb.cornerOrientations.foldl (· + ·) 0) % 3 ≠ 0 ∨
       (cb.edgeOrientations.foldl (· + ·) 0) % 2 ≠ 0 ∨
       Solver.calculateParity cb.cornerPositions ≠
         Solver.calculateParity cb.edgePositions)) ∧
    ((cb.cornerOrientations.foldl (· + ·) 0) % 3 ≠ 0 →
      (Solver.solve p).error = some Solver.cornerTwistMsg) ∧
    ((cb.cornerOrientations.foldl (· + ·) 0) % 3 = 0 →
      (cb.edgeOrientations.foldl (· + ·) 0) % 2 ≠ 0 →
      (Solver.solve p).error = some Solver.edgeFlipMsg) ∧
    ((cb.cornerOrientations.foldl (· + ·) 0) % 3 = 0 →
      (cb.edgeOrientations.foldl (· + ·) 0) % 2 = 0 →
      Solver.calculateParity cb.cornerPositions ≠
        Solver.calculateParity cb.edgePositions →
      (Solver.solve p).error = some Solver.parityMismatchMsg) := by
  have hinv : Solver.validateInvariants cb =
      (if (cb.cornerOrientations.foldl (· + ·) 0) % 3 ≠ 0 then some Solver.cornerTwistMsg
       else if (cb.edgeOrientations.foldl (· + ·) 0) % 2 ≠ 0 then some Solver.edgeFlipMsg
       else if Solver.calculateParity cb.cornerPositions ≠
           Solver.calculateParity cb.edgePositions then some Solver.parityMismatchMsg
       else none) := by
    unfold Solver.validateInvariants
    rw [if_neg (by simp [hnc]), if_neg (by simp [hne])]
  have hres : ∀ r, Solver.validateInvariants cb = r → Solver.solve p =
      (match r with
       | some e => ⟨false, [], [], some e⟩
       | none => ⟨true, Solver.optimizeMoves (Solver.solveCube fl).1,
           (Solver.solveCube fl).2, none⟩) := by
    intro r hr
    unfold Solver.solve Solver.solveBody
    simp only [hv, hf, hc, hr]
    cases r <;> rfl
  by_cases h3 : (cb.cornerOrientations.foldl (· + ·) 0) % 3 = 0
  · by_cases h2 : (cb.edgeOrientations.foldl (· + ·) 0) % 2 = 0
    · by_cases hp : Solver.calculateParity cb.cornerPositions =
          Solver.calculateParity cb.edgePositions
      · have he := hres none (by rw [hinv]; simp [h3, h2, hp])
        rw [he]
        refine ⟨by simp [h3, h2, hp], fun hx => absurd h3 hx,
          fun _ hx => absurd h2 hx, fun _ _ hx => absurd hp hx⟩
      · have he := hres (some Solver.parityMismatchMsg) (by rw [hinv]; simp [h3, h2, hp])
        rw [he]
        exact ⟨by simp [hp], fun hx => absurd h3 hx, fun _ hx => absurd h2 hx,
          fun _ _ _ => rfl⟩
    · have he := hres (some Solver.edgeFlipMsg) (by rw [hinv]; simp [h3, h2])
      rw [he]
      exact ⟨by simp [h2], fun hx => absurd h3 hx, fun _ _ => rfl,
        fun _ hx => absurd hx h2⟩
  · have he := hres (some Solver.cornerTwistMsg) (by rw [hinv]; simp [h3])
    rw [he]
    exact ⟨by simp [h3], fun _ => rfl, fun hx => absurd hx h3, fun hx _ => absurd hx h3⟩

/-- The painted state for the C2 witness: the solved colors with the two
non-bottom stickers of each bottom corner exchanged (so every bottom-corner
triple reads as a standard corner despite the mirrored `Solver.corners`
tables) and the top corner at U8/R0/F2 twisted once. -/
def twistedPaint : PaintState := fun f =>
  match f with
  | .U => ['W', 'W', 'W', 'W', 'W', 'W', 'W', 'W', 'G']
  | .R => ['W', 'R', 'R', 'R', 'R', 'R', 'G', 'R', 'B']
  | .F => ['G', 'G', 'R', 'G', 'G', 'G', 'O', 'G', 'R']
  | .D => List.replicate 9 'Y'
  | .L => ['O', 'O', 'O', 'O', 'O', 'O', 'B', 'O', 'G']
  | .B => ['B', 'B', 'B', 'B', 'B', 'B', 'R', 'B', 'O']

/-- The facelet letters of `twistedPaint`. -/
def twistedFacelets : List Face :=
  [.U, .U, .U, .U, .U, .U, .U, .U, .F,
   .U, .R, .R, .R, .R, .R, .F, .R, .B,
   .F, .F, .R, .F, .F, .F, .L, .F, .R,
   .D, .D, .D, .D, .D, .D, .D, .D, .D,
   .L, .L, .L, .L, .L, .L, .B, .L, .F,
   .B, .B, .B, .B, .B, .B, .R, .B, .L]

/-- The cubies derived from `twistedPaint`: identity positions, one twisted
corner. -/
def twistedCubies : Solver.Cubies :=
  ⟨[0, 1, 2, 3, 4, 5, 6, 7], [2, 0, 0, 0, 0, 0, 0, 0],
   [0, 1, 2, 3, 4, 5, 6, 7, 8, 9, 10, 11], [0, 0, 0, 0, 0, 0, 0, 0, 0, 0, 0, 0]⟩

/-- C2 witness: the theorem applied to the twisted painted state, all
hypotheses checked by evaluation. -/
theorem C2_unsolvable_witness :
    ((Solver.solve twistedPaint).success = false ↔
      ((twistedCubies.cornerOrientations.foldl (· + ·) 0) % 3 ≠ 0 ∨
       (twistedCubies.edgeOrientations.foldl (· + ·) 0) % 2 ≠ 0 ∨
       Solver.calculateParity twistedCubies.cornerPositions ≠
         Solver.calculateParity twistedCubies.edgePositions)) ∧
    ((twistedCubies.cornerOrientations.foldl (· + ·) 0) % 3 ≠ 0 →
      (Solver.solve twistedPaint).error = some Solver.cornerTwistMsg) ∧
    ((twistedCubies.cornerOrientations.foldl (· + ·) 0) % 3 = 0 →
      (twistedCubies.edgeOrientations.foldl (· + ·) 0) % 2 ≠ 0 →
      (Solver.solve twistedPaint).error = some Solver.edgeFlipMsg) ∧
    ((twistedCubies.cornerOrientations.foldl (· + ·) 0) % 3 = 0 →
      (twistedCubies.edgeOrientations.foldl (· + ·) 0) % 2 = 0 →
      Solver.calculateParity twistedCubies.cornerPositions ≠
        Solver.calculateParity twistedCubies.edgePositions →
      (Solver.solve twistedPaint).error = some Solver.parityMismatchMsg) :=
  C2_unsolvable_iff_invariants twistedPaint twistedFacelets twistedCubies
    (by decide) (by decide) (by decide) (by decide) (by decide)

/-- C10 witness: the theorem applied to length 3, the cycling face stream, the
all-plain modifier stream and the address state. -/
theorem C10_scramble_witness :
    (CubeState.scramble 3 rhoW (fun _ => Amt.cw) rhoW_fair addrState).1.length = 3 ∧
    List.Chain' (fun a b : Move => a.face ≠ b.face)
      (CubeState.scramble 3 rhoW (fun _ => Amt.cw) rhoW_fair addrState).1 ∧
    (CubeState.scramble 3 rhoW (fun _ => Amt.cw) rhoW_fair addrState).2 =
      CubeState.applyMoves
        (CubeState.scramble 3 rhoW (fun _ => Amt.cw) rhoW_fair addrState).1 addrState :=
  C10_scramble_spec 3 rhoW (fun _ => Amt.cw) rhoW_fair addrState

end RCube
